import Mathlib

/-!
Verification development for the requirement/test-case quality analyzer
(`core/ambiguity_detector.py`, `core/assumption_detector.py`, `core/scorer.py`).

The Python code is shallowly embedded: float arithmetic is modelled exactly,
with `ℚ` for the detector scoring pipelines (all of whose operations are
rational) and `ℝ` for the readiness aggregation, which uses real powers
`x ** 0.8` / `x ** 0.9`.  Python dict literals become ordered association
lists, `in` on strings becomes a contiguous-substring test, and regular
expressions from the fixed pattern tables are translated pattern by pattern.
-/

namespace ReqAnalyzer

/-- Characters treated as whitespace by Python `str.split()` and by the regex
class `\s`. -/
def pyWhitespace (c : Char) : Bool :=
  c = ' ' || c = '\t' || c = '\n' || c = '\r' || c = '\x0b' || c = '\x0c'

/-- Python `str.lower()` (character-wise; the analyzed texts are ASCII). -/
def lowerStr (s : String) : String := String.mk (s.data.map Char.toLower)

/-- Python `sub in hay`: contiguous substring test. -/
def substrOf (sub hay : String) : Bool :=
  (List.range (hay.data.length + 1)).any (fun i => sub.data.isPrefixOf (hay.data.drop i))

/-- Any of the given needles occurs in the haystack: models
`any(word in text for word in [...])` and regex alternations of plain
literals. -/
def anySub (pats : List String) (hay : String) : Bool :=
  pats.any (fun p => substrOf p hay)

/-- Worker for whitespace splitting: returns the maximal whitespace-free words
together with their character offsets.  Fuel is an upper bound on the number of
steps; `length + 1` always suffices since every step consumes a character. -/
def wsWordsGo : ℕ → List Char → ℕ → List (List Char × ℕ)
  | 0, _, _ => []
  | _, [], _ => []
  | fuel + 1, c :: cs, i =>
    if pyWhitespace c then wsWordsGo fuel cs (i + 1)
    else
      let w := c :: cs.takeWhile (fun d => !pyWhitespace d)
      let rest := cs.dropWhile (fun d => !pyWhitespace d)
      (w, i) :: wsWordsGo fuel rest (i + w.length)

def wsWords (cs : List Char) : List (List Char × ℕ) := wsWordsGo (cs.length + 1) cs 0

/-- Python `text.split()`. -/
def pySplit (s : String) : List String := (wsWords s.data).map (fun p => String.mk p.1)

/-- Python `len(text.split())`. -/
def wordCount (s : String) : ℕ := (pySplit s).length

/-- `len(text.split()) if text else 50`: the word count the scorer actually
uses, with the default of 50 for the empty (falsy) string. -/
def textLengthPy (text : String) : ℕ := if text = "" then 50 else wordCount text

/-- Python dict lookup: first entry with the given key, if any. -/
def dictFind {β : Type} (k : String) (l : List (String × β)) : Option β :=
  (l.find? (fun p => p.1 == k)).map (fun p => p.2)

/-- Python `dict.get(k, d)`. -/
def dictGet (k : String) (l : List (String × ℚ)) (d : ℚ) : ℚ :=
  (dictFind k l).getD d

/-- Token supplied by the external tokenizer/tagger: surface text,
part-of-speech tag, dependency label and character offset. -/
structure Token where
  text : String
  pos : String
  dep : String
  idx : ℕ
deriving DecidableEq

/-- Modelled from the spec: the external Tokenizer/Tagger adapter (spec S2, S6)
is out of scope of the source; per spec S7 the degraded fallback tokenizer
still splits text into word tokens but supplies empty POS and dependency tags.
This is the whitespace word tokenizer with character offsets. -/
def wsTokenize (s : String) : List Token :=
  (wsWords s.data).map (fun p => { text := String.mk p.1, pos := "", dep := "", idx := p.2 })

/-- Python `s.find(sub, start)`: smallest index `i ≥ start` at which `sub`
occurs, else `-1`. -/
def strFind (s sub : String) (start : ℕ) : Int :=
  match (List.range (s.data.length + 1)).find?
      (fun i => decide (start ≤ i) && sub.data.isPrefixOf (s.data.drop i)) with
  | some i => (i : Int)
  | none => -1

/-- `_find_char_position`: `original_text.lower().find(token_text, token_idx)`.
Python `str.find` is total and returns `-1` when the substring is absent, so
the `except` branch of the source (which would produce `None`) is unreachable;
the function always returns an integer. -/
def findCharPosition (originalText tokenText : String) (tokenIdx : ℕ) : Option Int :=
  some (strFind (lowerStr originalText) tokenText tokenIdx)

/-- `AmbiguityIssue` dataclass. -/
structure AmbiguityIssue where
  type : String
  text : String
  message : String
  start_char : Option Int := none
  end_char : Option Int := none
deriving DecidableEq

/-- `self.subjective_terms`. -/
def subjectiveTerms : List String :=
  ["fast", "slow", "quick", "rapid", "secure", "safe", "scalable",
   "optimal", "efficient", "user-friendly", "intuitive", "robust",
   "reliable", "stable", "flexible", "portable", "compatible",
   "accessible", "responsive", "smooth", "seamless", "clean",
   "proper", "correct", "appropriate", "adequate", "sufficient"]

/-- `self.weak_modality_terms`. -/
def weakModalityTerms : List String :=
  ["should", "could", "might", "may", "can", "if possible",
   "as needed", "when necessary", "ideally", "preferably"]

/-- `self.undefined_references`. -/
def undefinedReferences : List String :=
  ["it", "this", "that", "these", "those", "the system",
   "the component", "the application", "the user"]

/-- `self.non_testable_patterns`: each pair `(a, b)` stands for the regular
expression `a.*b`. -/
def nonTestablePatterns : List (String × String) :=
  [("handle", "properly"), ("work", "correctly"), ("function", "properly"),
   ("behave", "correctly"), ("perform", "properly"), ("process", "correctly")]

/-- Slice `text[max 0 (tokStart - w) : min (len text) (tokStart + tokLen + w)]`:
the context window used by `_get_context_window` and
`_has_quantitative_context` (natural subtraction is already clamped at 0). -/
def contextSlice (text : String) (tokStart tokLen w : ℕ) : String :=
  let cs := text.data
  let s := tokStart - w
  let e := min cs.length (tokStart + tokLen + w)
  String.mk ((cs.drop s).take (e - s))

def isDigitCh (c : Char) : Bool := '0' ≤ c && c ≤ '9'

/-- Regex `\d+` anywhere in the text. -/
def containsDigit (cs : List Char) : Bool := cs.any isDigitCh

/-- Regex `\d+\s*(alt1|alt2|...)`: a digit run, optional whitespace, then one
of the literal alternatives (none of the alternatives used in the source
starts with a digit or whitespace, so maximal munch is exact). -/
def digitsThen (alts : List String) (w : String) : Bool :=
  let cs := w.data
  (List.range cs.length).any (fun i =>
    match cs.drop i with
    | [] => false
    | c :: rest =>
      isDigitCh c &&
        (let afterDigits := rest.dropWhile isDigitCh
         let afterSpace := afterDigits.dropWhile pyWhitespace
         alts.any (fun a => a.data.isPrefixOf afterSpace)))

/-- Regex `\d+\.\d+`. -/
def hasDecimalNumber (w : String) : Bool :=
  let cs := w.data
  (List.range cs.length).any (fun i =>
    match cs.drop i with
    | [] => false
    | c :: rest =>
      isDigitCh c &&
        (match rest.dropWhile isDigitCh with
         | '.' :: d :: _ => isDigitCh d
         | _ => false))

/-- Regex `a.?b`: literal `a`, at most one non-newline character, literal `b`. -/
def withOptionalChar (a b : String) (w : String) : Bool :=
  let cs := w.data
  (List.range (cs.length + 1)).any (fun i =>
    a.data.isPrefixOf (cs.drop i) &&
      (let j := i + a.data.length
       b.data.isPrefixOf (cs.drop j) ||
         (match cs.drop j with
          | c :: rest => c ≠ '\n' && b.data.isPrefixOf rest
          | [] => false)))

/-- Regex `\d+\s*(?:%|percent)\s*uptime`. -/
def percentUptime (w : String) : Bool :=
  let cs := w.data
  (List.range cs.length).any (fun i =>
    match cs.drop i with
    | [] => false
    | c :: rest =>
      isDigitCh c &&
        (let t1 := (rest.dropWhile isDigitCh).dropWhile pyWhitespace
         match t1 with
         | '%' :: u => "uptime".data.isPrefixOf (u.dropWhile pyWhitespace)
         | _ =>
           "percent".data.isPrefixOf t1 &&
             "uptime".data.isPrefixOf ((t1.drop 7).dropWhile pyWhitespace)))

/-- `_has_quantitative_context`: window of 50 characters around the token,
lowercased, scanned for the quantitative patterns. -/
def hasQuantitativeContext (tok : Token) (text : String) : Bool :=
  let window := lowerStr (contextSlice text tok.idx tok.text.length 50)
  containsDigit window.data ||
  digitsThen ["ms", "sec", "second", "minute", "hour", "day"] window ||
  digitsThen ["%", "percent"] window ||
  digitsThen ["px", "pixel", "mb", "gb", "kb"] window ||
  digitsThen ["user", "request", "transaction", "operation"] window ||
  anySub ["less than", "greater than", "at least", "at most"] window ||
  hasDecimalNumber window ||
  anySub ["zero", "one", "two", "three", "four", "five", "six", "seven",
          "eight", "nine", "ten"] window

/-- `_has_performance_context` (window 100). -/
def hasPerformanceContext (tok : Token) (text : String) : Bool :=
  let window := lowerStr (contextSlice text tok.idx tok.text.length 100)
  digitsThen ["ms", "millisecond", "sec", "second", "minute"] window ||
  anySub ["under", "within", "less than", "no more than"] window ||
  anySub ["response time", "load time", "render time"] window ||
  (digitsThen ["fps"] window || substrOf "frames per second" window) ||
  anySub ["latency", "throughput", "bandwidth"] window

/-- `_has_security_context` (window 150). -/
def hasSecurityContext (tok : Token) (text : String) : Bool :=
  let window := lowerStr (contextSlice text tok.idx tok.text.length 150)
  anySub ["encryption", "ssl", "tls", "https", "oauth", "jwt", "saml"] window ||
  anySub ["authentication", "authorization", "auth"] window ||
  anySub ["firewall", "vpn", "certificate", "key"] window ||
  anySub ["sql injection", "xss", "csrf", "attack", "threat"] window ||
  anySub ["password", "credential", "token", "session"] window ||
  anySub ["aes", "rsa", "sha", "hash", "salt"] window

/-- `_has_usability_context` (window 100). -/
def hasUsabilityContext (tok : Token) (text : String) : Bool :=
  let window := lowerStr (contextSlice text tok.idx tok.text.length 100)
  anySub ["accessibility", "wcag", "contrast", "font size"] window ||
  anySub ["click", "tap", "gesture", "navigation", "menu"] window ||
  anySub ["error message", "feedback", "guidance"] window ||
  anySub ["learning curve", "training time"] window ||
  anySub ["efficiency", "effectiveness", "satisfaction"] window ||
  anySub ["task completion", "success rate", "error rate"] window

/-- `_has_reliability_context` (window 100). -/
def hasReliabilityContext (tok : Token) (text : String) : Bool :=
  let window := lowerStr (contextSlice text tok.idx tok.text.length 100)
  percentUptime window ||
  anySub ["mean time", "mtbf", "mttr"] window ||
  anySub ["availability", "sla", "downtime"] window ||
  anySub ["redundancy", "failover", "backup"] window ||
  anySub ["error rate", "failure rate", "recovery"] window ||
  (digitsThen ["nines"] window || anySub ["five nines", "four nines"] window)

/-- `_has_scalability_context` (window 100). -/
def hasScalabilityContext (tok : Token) (text : String) : Bool :=
  let window := lowerStr (contextSlice text tok.idx tok.text.length 100)
  digitsThen ["user", "request", "transaction", "connection"] window ||
  anySub ["concurrent", "simultaneous", "parallel"] window ||
  (anySub ["horizontal", "vertical"] window || withOptionalChar "auto" "scal" window) ||
  anySub ["load balanc", "cluster", "distributed"] window ||
  anySub ["peak", "maximum", "capacity", "throughput"] window ||
  (anySub ["elastic", "dynamic"] window || withOptionalChar "on" "demand" window)

/-- `_detect_subjective_terms`: the `doc` is the tokenization of the lowered
text, context checks run against the original text. -/
def detectSubjectiveTerms (doc : List Token) (originalText : String) : List AmbiguityIssue :=
  doc.flatMap (fun token =>
    let tokenText := lowerStr token.text
    if subjectiveTerms.contains tokenText then
      let shouldFlag :=
        if tokenText = "fast" then !hasPerformanceContext token originalText
        else if tokenText = "secure" || tokenText = "safe" then
          !hasSecurityContext token originalText
        else if tokenText = "user-friendly" then !hasUsabilityContext token originalText
        else if tokenText = "reliable" then !hasReliabilityContext token originalText
        else if tokenText = "scalable" then !hasScalabilityContext token originalText
        else !hasQuantitativeContext token originalText
      if shouldFlag then
        let startChar := findCharPosition originalText token.text token.idx
        let endChar := startChar.map (fun s => s + (token.text.length : Int))
        [{ type := "Subjective term", text := token.text,
           message := "Subjective term \x27" ++ token.text ++
             "\x27 lacks specific, measurable criteria",
           start_char := startChar, end_char := endChar }]
      else []
    else [])

/-- `_detect_weak_modality`. -/
def detectWeakModality (doc : List Token) (originalText : String) : List AmbiguityIssue :=
  doc.flatMap (fun token =>
    if weakModalityTerms.contains token.text then
      let startChar := findCharPosition originalText token.text token.idx
      let endChar := startChar.map (fun s => s + (token.text.length : Int))
      [{ type := "Weak modality", text := token.text,
         message := "Optional/weak requirement term: \x27" ++ token.text ++ "\x27",
         start_char := startChar, end_char := endChar }]
    else [])

/-- `_is_undefined_reference`. -/
def isUndefinedReference (token : Token) : Bool :=
  token.pos = "PRON" || token.dep = "det" || token.dep = "poss"

/-- `_detect_undefined_references`. -/
def detectUndefinedReferences (doc : List Token) (originalText : String) : List AmbiguityIssue :=
  doc.flatMap (fun token =>
    if undefinedReferences.contains token.text then
      if isUndefinedReference token then
        let startChar := findCharPosition originalText token.text token.idx
        let endChar := startChar.map (fun s => s + (token.text.length : Int))
        [{ type := "Undefined reference", text := token.text,
           message := "Potentially undefined reference: \x27" ++ token.text ++ "\x27",
           start_char := startChar, end_char := endChar }]
      else []
    else [])

/-- `text[a:b]` on char lists. -/
def sliceL (cs : List Char) (a b : ℕ) : List Char := (cs.drop a).take (b - a)

/-- The regex `.` does not cross a newline. -/
def lineOk (cs : List Char) : Bool := !cs.contains '\n'

/-- Greedy end position for `a.*b` whose `a` part ends at `startAfterA`: the
largest `j` at which `b` matches with no newline in between. -/
def greedyEnd (bPat cs : List Char) (startAfterA : ℕ) : Option ℕ :=
  ((List.range (cs.length + 1)).filter (fun j =>
      decide (startAfterA ≤ j) && bPat.isPrefixOf (cs.drop j) &&
        lineOk (sliceL cs startAfterA j))).getLast?

/-- Leftmost match of `a.*b` at or after position `p` (leftmost start, then
greedy `.*`), as Python `re` produces it. -/
def patMatchFrom (aPat bPat cs : List Char) (p : ℕ) : Option (ℕ × ℕ) :=
  match (List.range (cs.length + 1)).find? (fun i =>
      decide (p ≤ i) && aPat.isPrefixOf (cs.drop i) &&
        (greedyEnd bPat cs (i + aPat.length)).isSome) with
  | some i =>
    match greedyEnd bPat cs (i + aPat.length) with
    | some j => some (i, j + bPat.length)
    | none => none
  | none => none

/-- Successive non-overlapping matches, continuing from each match end.  Every
match ends strictly after its start, so `length + 1` fuel suffices. -/
def patMatchesGo (aPat bPat cs : List Char) : ℕ → ℕ → List (ℕ × ℕ)
  | 0, _ => []
  | fuel + 1, p =>
    match patMatchFrom aPat bPat cs p with
    | some (i, e) => (i, e) :: patMatchesGo aPat bPat cs fuel e
    | none => []

/-- `re.finditer` of the pattern `a.*b` over a text: list of `(start, end)`
spans. -/
def patMatches (aPat bPat : String) (text : String) : List (ℕ × ℕ) :=
  patMatchesGo aPat.data bPat.data text.data (text.data.length + 1) 0

/-- `_detect_non_testable_statements`. -/
def detectNonTestableStatements (text : String) : List AmbiguityIssue :=
  let textLower := lowerStr text
  nonTestablePatterns.flatMap (fun pat =>
    (patMatches pat.1 pat.2 textLower).map (fun m =>
      let matched := String.mk (sliceL textLower.data m.1 m.2)
      { type := "Non-testable statement", text := matched,
        message := "Non-testable requirement: \x27" ++ matched ++ "\x27",
        start_char := some (m.1 : Int), end_char := some (m.2 : Int) }))

/-- `detect_ambiguities`: the spaCy pipeline `self.nlp(text.lower())` is the
external tokenizer applied to the lowered text; it is passed in as a
parameter. -/
def detectAmbiguities (tokenize : String → List Token) (text : String) : List AmbiguityIssue :=
  let doc := tokenize (lowerStr text)
  detectSubjectiveTerms doc text ++ detectWeakModality doc text ++
    detectUndefinedReferences doc text ++ detectNonTestableStatements text

/-- `AMBIGUITY_WEIGHTS["Subjective term"]`. -/
def subjectiveTermCategoryWeights : List (String × ℚ) :=
  [("performance", 6), ("quality", 5), ("usability", 8), ("reliability", 8),
   ("security", 9), ("scalability", 7), ("efficiency", 6), ("accuracy", 10),
   ("compatibility", 7), ("maintainability", 6)]

/-- `AMBIGUITY_WEIGHTS["Weak modality"]`. -/
def weakModalityCategoryWeights : List (String × ℚ) :=
  [("possibility", 5), ("preference", 6), ("conditionality", 7),
   ("frequency", 4), ("probability", 6), ("tentativeness", 5)]

/-- A value of the `AMBIGUITY_WEIGHTS` dict: either a nested per-category dict
or a plain number. -/
inductive AmbWeight where
  | table : List (String × ℚ) → AmbWeight
  | scalar : ℚ → AmbWeight

/-- `AMBIGUITY_WEIGHTS`. -/
def ambiguityWeights : List (String × AmbWeight) :=
  [("Subjective term", .table subjectiveTermCategoryWeights),
   ("Weak modality", .table weakModalityCategoryWeights),
   ("Undefined reference", .scalar 9),
   ("Non-testable statement", .scalar 15)]

/-- The `category_mapping` of `_get_subjective_term_weight`. -/
def subjectiveCategoryMapping : List (String × List String) :=
  [("performance",
    ["fast", "slow", "quick", "rapid", "speedy", "swift", "brisk",
     "sluggish", "laggy", "smooth", "responsive", "snappy", "nimble",
     "agile", "zippy", "crawling", "glacial", "lethargic", "tardy",
     "delayed", "unresponsive", "clunky", "fluid", "seamless", "effortless",
     "lightning", "blazing", "superfast", "ultrafast"]),
   ("quality",
    ["good", "bad", "better", "best", "worse", "worst", "excellent",
     "poor", "superior", "inferior", "great", "terrible", "superb", "awful",
     "outstanding", "mediocre", "exceptional", "subpar", "premium",
     "low-quality", "high-quality", "top-notch", "first-rate", "second-rate",
     "world-class", "substandard", "impressive", "dismal", "stellar",
     "pathetic", "magnificent", "shoddy", "splendid", "lousy"]),
   ("usability",
    ["easy", "hard", "simple", "complex", "intuitive", "confusing",
     "user-friendly", "difficult", "straightforward", "complicated",
     "accessible", "inaccessible", "ergonomic", "awkward", "natural",
     "unnatural", "obvious", "non-obvious", "self-explanatory", "puzzling",
     "clear", "unclear", "transparent", "opaque", "learnable", "steep",
     "gentle", "frustrating", "pleasing", "annoying"]),
   ("reliability",
    ["reliable", "unreliable", "robust", "fragile", "stable", "unstable",
     "consistent", "inconsistent", "dependable", "flaky", "trustworthy",
     "untrustworthy", "solid", "breakable", "steady", "erratic",
     "predictable", "unpredictable", "bulletproof", "vulnerable",
     "resilient", "brittle", "fault-tolerant", "failure-prone"]),
   ("security",
    ["secure", "insecure", "safe", "unsafe", "protected", "vulnerable",
     "trustworthy", "risky", "encrypted", "exposed", "guarded", "defenseless",
     "fortified", "weak", "tamper-proof", "hackable", "authenticated",
     "unauthenticated", "authorized", "unauthorized", "validated",
     "unvalidated", "sanitized", "contaminated"]),
   ("scalability",
    ["scalable", "non-scalable", "flexible", "rigid", "adaptable",
     "inflexible", "extensible", "limited", "expandable", "constrained",
     "elastic", "static", "dynamic", "fixed", "modular", "monolithic",
     "distributed", "centralized", "cloud-ready", "on-premise",
     "horizontal", "vertical", "auto-scaling", "manual"]),
   ("efficiency",
    ["efficient", "inefficient", "optimal", "suboptimal", "effective",
     "ineffective", "productive", "wasteful", "streamlined", "cumbersome",
     "lean", "bloated", "concise", "verbose", "succinct", "redundant",
     "economical", "extravagant", "frugal", "lavish", "thrifty", "wasteful",
     "resourceful", "profligate"]),
   ("accuracy",
    ["accurate", "inaccurate", "precise", "imprecise", "exact", "inexact",
     "correct", "incorrect", "right", "wrong", "valid", "invalid", "true",
     "false", "factual", "erroneous", "authentic", "fake", "genuine",
     "counterfeit", "legitimate", "bogus"]),
   ("compatibility",
    ["compatible", "incompatible", "interoperable", "non-interoperable",
     "universal", "proprietary", "standard", "custom", "open", "closed",
     "cross-platform", "platform-specific", "vendor-neutral",
     "vendor-locked", "agnostic", "dependent"]),
   ("maintainability",
    ["maintainable", "unmaintainable", "modular", "monolithic",
     "clean", "messy", "readable", "unreadable", "organized",
     "disorganized", "structured", "chaotic", "documented",
     "undocumented", "testable", "untestable", "debuggable", "opaque"])]

/-- `_get_subjective_term_weight`. -/
def getSubjectiveTermWeight (issue : AmbiguityIssue)
    (categoryWeights : List (String × ℚ)) : ℚ :=
  if issue.type ≠ "Subjective term" then 8
  else
    let issueText := lowerStr issue.text
    match subjectiveCategoryMapping.find? (fun p => p.2.contains issueText) with
    | some p => dictGet p.1 categoryWeights 8
    | none => dictGet "quality" categoryWeights 8

/-- A single issue's contribution to `base_score` in
`_calculate_component_score`: issue kinds outside `AMBIGUITY_WEIGHTS`
contribute nothing (there is no `else` branch). -/
def issueWeight (issue : AmbiguityIssue) : ℚ :=
  match dictFind issue.type ambiguityWeights with
  | some (.table t) => getSubjectiveTermWeight issue t
  | some (.scalar w) => w
  | none => 0

/-- `_calculate_component_score`. -/
def calculateComponentScore (componentIssues : List AmbiguityIssue)
    (text : String) (componentType : String) : ℚ :=
  if componentIssues.isEmpty then 0
  else
    let baseScore : ℚ := (componentIssues.map issueWeight).sum
    let textLength := textLengthPy text
    let densityFactor : ℚ := (componentIssues.length : ℚ) / ((max textLength 5 : ℕ) : ℚ)
    let densityScore : ℚ :=
      if componentType = "lexical" then min 30 (densityFactor * 60)
      else if componentType = "testability" then min 40 (densityFactor * 80)
      else min 35 (densityFactor * 70)
    let rawScore := baseScore + densityScore
    if rawScore > 80 then 80 + (rawScore - 80) * 0.3
    else min 100 rawScore

/-- The categorization loop of `calculate_ambiguity_score`: partitions issues
into (lexical, testability, references); a Weak modality issue is appended to
both the lexical and the testability partition. -/
def categorizeAmbiguityIssues :
    List AmbiguityIssue → List AmbiguityIssue × List AmbiguityIssue × List AmbiguityIssue
  | [] => ([], [], [])
  | issue :: rest =>
    let prev := categorizeAmbiguityIssues rest
    if issue.type = "Subjective term" then (issue :: prev.1, prev.2.1, prev.2.2)
    else if issue.type = "Non-testable statement" then (prev.1, issue :: prev.2.1, prev.2.2)
    else if issue.type = "Undefined reference" then (prev.1, prev.2.1, issue :: prev.2.2)
    else if issue.type = "Weak modality" then (issue :: prev.1, issue :: prev.2.1, prev.2.2)
    else prev

/-- `_calculate_confidence`. -/
def calculateConfidence (text : String) (issues : List AmbiguityIssue) : String :=
  let textLength := wordCount text
  let issueCount := issues.length
  let issueTypes := ((issues.map (fun i => i.type)).dedup).length
  if textLength ≥ 10 ∧ issueTypes ≥ 2 ∧
      ((issueCount : ℚ) / ((max textLength 1 : ℕ) : ℚ)) ≤ 0.5 then "HIGH"
  else if textLength ≥ 5 ∧ issueCount > 0 then "MEDIUM"
  else "LOW"

/-- Python `round(x, 1)`.  At an exact `.05` tie Python rounds half-to-even
while this rounds half-up; no value arising in this development sits on a
tie. -/
def round1 (q : ℚ) : ℚ := ((⌊q * 10 + 1 / 2⌋ : ℤ) : ℚ) / 10

/-- The `components` sub-dict of the ambiguity analysis result. -/
structure AmbComponents where
  lexical : ℚ
  testability : ℚ
  references : ℚ
deriving DecidableEq

/-- The dict returned by `calculate_ambiguity_score`. -/
structure AmbResult where
  score : ℚ
  confidence : String
  components : AmbComponents
deriving DecidableEq

/-- `calculate_ambiguity_score`.  The code after its `return` statement
(a leftover earlier scoring formula) is unreachable and is not embedded. -/
def calculateAmbiguityScore (issues : List AmbiguityIssue) (text : String) : AmbResult :=
  if issues.isEmpty then
    { score := 0, confidence := "HIGH",
      components := { lexical := 0, testability := 0, references := 0 } }
  else
    let parts := categorizeAmbiguityIssues issues
    let lexicalScore := calculateComponentScore parts.1 text "lexical"
    let testabilityScore := calculateComponentScore parts.2.1 text "testability"
    let referenceScore := calculateComponentScore parts.2.2 text "references"
    let overallScore := lexicalScore * 0.3 + testabilityScore * 0.5 + referenceScore * 0.2
    { score := round1 overallScore,
      confidence := calculateConfidence text issues,
      components :=
        { lexical := round1 lexicalScore,
          testability := round1 testabilityScore,
          references := round1 referenceScore } }

/-- `AssumptionIssue` dataclass. -/
structure AssumptionIssue where
  type : String
  category : String
  text : String
  message : String
  assumption : String
deriving DecidableEq

/-- `self.action_patterns` (insertion order preserved, as in a Python dict). -/
def actionPatterns : List (String × List String) :=
  [("login", ["user_exists", "credentials_exist"]),
   ("log in", ["user_exists", "credentials_exist"]),
   ("sign in", ["user_exists", "credentials_exist"]),
   ("authenticate", ["user_exists", "credentials_exist"]),
   ("logout", ["user_logged_in"]),
   ("log out", ["user_logged_in"]),
   ("sign out", ["user_logged_in"]),
   ("navigate", ["user_logged_in"]),
   ("access", ["user_logged_in", "permissions_granted"]),
   ("view", ["user_logged_in", "permissions_granted"]),
   ("see", ["user_logged_in", "permissions_granted"]),
   ("visit", ["user_logged_in"]),
   ("go to", ["user_logged_in"]),
   ("open", ["user_logged_in"]),
   ("enter", ["user_logged_in"]),
   ("browse", ["user_logged_in"]),
   ("submit", ["form_filled", "user_logged_in"]),
   ("save", ["data_entered", "user_logged_in"]),
   ("update", ["record_exists", "user_logged_in", "permissions_granted"]),
   ("delete", ["record_exists", "user_logged_in", "permissions_granted"]),
   ("edit", ["record_exists", "user_logged_in", "permissions_granted"]),
   ("modify", ["record_exists", "user_logged_in", "permissions_granted"]),
   ("create", ["user_logged_in", "permissions_granted"]),
   ("add", ["user_logged_in", "permissions_granted"]),
   ("insert", ["user_logged_in", "permissions_granted"]),
   ("search", ["user_logged_in"]),
   ("filter", ["user_logged_in"]),
   ("sort", ["user_logged_in"]),
   ("find", ["user_logged_in"]),
   ("query", ["user_logged_in"]),
   ("lookup", ["user_logged_in"]),
   ("verify", ["condition_exists", "user_logged_in"]),
   ("check", ["condition_exists", "user_logged_in"]),
   ("validate", ["data_exists", "user_logged_in"]),
   ("confirm", ["condition_exists", "user_logged_in"]),
   ("ensure", ["condition_exists", "user_logged_in"]),
   ("assert", ["condition_exists", "user_logged_in"]),
   ("test", ["condition_exists", "user_logged_in"]),
   ("upload", ["file_exists", "user_logged_in"]),
   ("download", ["file_exists", "user_logged_in", "permissions_granted"]),
   ("export", ["data_exists", "user_logged_in"]),
   ("import", ["file_exists", "user_logged_in", "permissions_granted"]),
   ("attach", ["file_exists", "user_logged_in"]),
   ("share", ["file_exists", "user_logged_in", "permissions_granted"]),
   ("send", ["recipient_exists", "user_logged_in"]),
   ("receive", ["sender_exists"]),
   ("message", ["communication_setup"]),
   ("email", ["recipient_exists", "user_logged_in"]),
   ("notify", ["recipient_exists", "user_logged_in"]),
   ("contact", ["recipient_exists", "user_logged_in"]),
   ("communicate", ["communication_setup"]),
   ("admin", ["admin_role", "user_logged_in"]),
   ("manager", ["manager_role", "user_logged_in"]),
   ("administrator", ["admin_role", "user_logged_in"]),
   ("supervisor", ["manager_role", "user_logged_in"]),
   ("error", ["error_trigger"]),
   ("fail", ["failure_condition"]),
   ("crash", ["error_trigger"]),
   ("break", ["error_trigger"]),
   ("handle", ["error_trigger"]),
   ("recover", ["failure_condition"]),
   ("configure", ["admin_role", "user_logged_in"]),
   ("setup", ["admin_role", "user_logged_in"]),
   ("customize", ["user_logged_in"]),
   ("personalize", ["user_logged_in"]),
   ("settings", ["user_logged_in"]),
   ("preferences", ["user_logged_in"]),
   ("report", ["data_exists", "user_logged_in", "permissions_granted"]),
   ("analytics", ["data_exists", "user_logged_in", "permissions_granted"]),
   ("dashboard", ["user_logged_in"]),
   ("metrics", ["data_exists", "user_logged_in", "permissions_granted"]),
   ("statistics", ["data_exists", "user_logged_in", "permissions_granted"]),
   ("integrate", ["external_service_exists"]),
   ("connect", ["external_service_exists"]),
   ("sync", ["external_service_exists"]),
   ("api", ["api_access_configured"]),
   ("webhook", ["webhook_configured"]),
   ("callback", ["callback_configured"])]

/-- `self.assumption_descriptions`. -/
def assumptionDescriptions : List (String × String) :=
  [("user_exists", "Valid test user exists in the system"),
   ("credentials_exist", "User credentials are available and valid"),
   ("user_logged_in", "User is already authenticated/logged in"),
   ("permissions_granted", "User has necessary permissions for the action"),
   ("form_filled", "Form is already filled with valid data"),
   ("data_entered", "Required data has been entered"),
   ("record_exists", "Target record exists in the system"),
   ("condition_exists", "Condition to verify is present"),
   ("data_exists", "Required data exists for validation"),
   ("error_trigger", "Error condition can be triggered"),
   ("failure_condition", "Failure scenario can be reproduced"),
   ("admin_role", "Admin user role is available"),
   ("manager_role", "Manager user role is available"),
   ("user_role", "Regular user role is available"),
   ("file_exists", "Required file exists for the operation"),
   ("recipient_exists", "Message recipient exists"),
   ("sender_exists", "Message sender exists"),
   ("communication_setup", "Communication channel is configured"),
   ("external_service_exists", "External service or API is available and accessible"),
   ("api_access_configured", "API access credentials and endpoints are configured"),
   ("webhook_configured", "Webhook endpoints are set up and accessible"),
   ("callback_configured", "Callback mechanisms are properly configured")]

/-- `self.environment_indicators`. -/
def environmentIndicators : List String :=
  ["browser", "chrome", "firefox", "safari", "edge",
   "mobile", "desktop", "tablet", "ios", "android",
   "windows", "mac", "linux", "device", "network"]

/-- The `explicit_indicators` dict of `_is_assumption_explicit`. -/
def explicitIndicators : List (String × List String) :=
  [("user_exists", ["user exists", "test user", "valid user"]),
   ("credentials_exist", ["credentials", "password", "login details"]),
   ("user_logged_in", ["logged in", "authenticated", "signed in"]),
   ("permissions_granted", ["permission", "authorized", "access granted"]),
   ("form_filled", ["filled", "entered", "completed"]),
   ("data_entered", ["entered", "provided", "input"]),
   ("record_exists", ["exists", "available", "present"]),
   ("condition_exists", ["condition", "scenario", "case"]),
   ("data_exists", ["data exists", "available data"]),
   ("error_trigger", ["error occurs", "error condition"]),
   ("failure_condition", ["failure", "error case"])]

/-- `_is_assumption_explicit`. -/
def isAssumptionExplicit (text : String) (assumptionKey : String) : Bool :=
  let indicators := (dictFind assumptionKey explicitIndicators).getD []
  indicators.any (fun indicator => substrOf indicator text)

/-- The `category_mapping` of `_get_assumption_category`. -/
def assumptionCategoryMapping : List (String × String) :=
  [("user_exists", "Data"),
   ("credentials_exist", "Data"),
   ("user_logged_in", "State"),
   ("permissions_granted", "State"),
   ("form_filled", "Data"),
   ("data_entered", "Data"),
   ("record_exists", "Data"),
   ("condition_exists", "State"),
   ("data_exists", "Data"),
   ("error_trigger", "State"),
   ("failure_condition", "State"),
   ("admin_role", "State"),
   ("manager_role", "State"),
   ("user_role", "State"),
   ("file_exists", "Data"),
   ("recipient_exists", "Data"),
   ("sender_exists", "Data"),
   ("communication_setup", "Environment"),
   ("external_service_exists", "Environment"),
   ("api_access_configured", "Environment"),
   ("webhook_configured", "Environment"),
   ("callback_configured", "Environment")]

/-- `_get_assumption_category`. -/
def getAssumptionCategory (assumptionKey : String) : String :=
  (dictFind assumptionKey assumptionCategoryMapping).getD "Unknown"

/-- `_detect_action_assumptions` (the `doc` parameter of the source is
unused: detection is by substring on the lowered text). -/
def detectActionAssumptions (originalText : String) : List AssumptionIssue :=
  let textLower := lowerStr originalText
  actionPatterns.flatMap (fun pat =>
    if substrOf pat.1 textLower then
      pat.2.filterMap (fun assumptionKey =>
        if !isAssumptionExplicit textLower assumptionKey then
          some { type := "Action assumption",
                 category := getAssumptionCategory assumptionKey,
                 text := pat.1,
                 message := "Action \x27" ++ pat.1 ++ "\x27 implies assumption",
                 assumption := (dictFind assumptionKey assumptionDescriptions).getD assumptionKey }
        else none)
    else [])

/-- `_detect_environment_assumptions`. -/
def detectEnvironmentAssumptions (text : String) : List AssumptionIssue :=
  let textLower := lowerStr text
  let uiActions := ["click", "type", "select", "scroll", "hover", "tap"]
  let hasUiAction := uiActions.any (fun action => substrOf action textLower)
  if hasUiAction then
    let hasEnvironment := environmentIndicators.any (fun env => substrOf env textLower)
    if !hasEnvironment then
      [{ type := "Environment assumption", category := "Environment",
         text := "UI interaction",
         message := "UI interaction without environment specification",
         assumption := "Browser, device, or platform is specified" }]
    else []
  else []

/-- `_has_user_context`. -/
def hasUserContext (text : String) : Bool :=
  anySub ["user", "login", "authenticate", "sign in", "logged in",
          "account", "profile", "session"] text

/-- `_has_data_context`. -/
def hasDataContext (text : String) : Bool :=
  anySub ["data", "record", "entry", "information", "content",
          "database", "exists", "available", "present"] text

/-- `_detect_context_assumptions`. -/
def detectContextAssumptions (text : String) : List AssumptionIssue :=
  let textLower := lowerStr text
  let userIssues :=
    if anySub ["profile", "settings", "account", "dashboard"] textLower then
      if !hasUserContext textLower then
        [{ type := "Context assumption", category := "State",
           text := "User-specific action",
           message := "User-specific action without user context",
           assumption := "User is logged in and authenticated" }]
      else []
    else []
  let dataIssues :=
    if anySub ["search", "filter", "sort", "export"] textLower then
      if !hasDataContext textLower then
        [{ type := "Context assumption", category := "Data",
           text := "Data operation",
           message := "Data operation without data context",
           assumption := "Required data exists in the system" }]
      else []
    else []
  userIssues ++ dataIssues

/-- `detect_assumptions` (the spaCy doc is computed but never used by the
three sub-detectors, which work on the lowered text). -/
def detectAssumptions (text : String) : List AssumptionIssue :=
  detectActionAssumptions text ++ detectEnvironmentAssumptions text ++
    detectContextAssumptions text

/-- `ASSUMPTION_WEIGHTS["Environment"]`. -/
def environmentWeights : List (String × ℚ) :=
  [("UI interaction", 14), ("browsers", 12), ("devices", 12),
   ("operating_systems", 11), ("network", 10), ("display", 9),
   ("databases", 15), ("apis", 12), ("cloud_providers", 11)]

/-- `ASSUMPTION_WEIGHTS["Data"]`. -/
def dataWeights : List (String × ℚ) :=
  [("user_exists", 10), ("credentials_exist", 11), ("form_filled", 8),
   ("data_entered", 9), ("record_exists", 9), ("data_exists", 8),
   ("file_exists", 9), ("recipient_exists", 8), ("sender_exists", 8),
   ("task_exists", 8), ("item_exists", 7), ("issue_exists", 8)]

/-- `ASSUMPTION_WEIGHTS["State"]`. -/
def stateWeights : List (String × ℚ) :=
  [("user_logged_in", 13), ("permissions_granted", 14), ("condition_exists", 9),
   ("error_trigger", 10), ("failure_condition", 9), ("admin_role", 11),
   ("manager_role", 10), ("user_role", 10), ("account_active", 12),
   ("form_valid", 8), ("space_available", 8)]

/-- `ASSUMPTION_WEIGHTS`. -/
def assumptionWeights : List (String × List (String × ℚ)) :=
  [("Environment", environmentWeights), ("Data", dataWeights), ("State", stateWeights)]

/-- The `key_mappings` of `_get_assumption_type_weight` (phrase, key). -/
def assumptionKeyMappings : List (String × String) :=
  [("user exists", "user_exists"),
   ("credentials exist", "credentials_exist"),
   ("user logged in", "user_logged_in"),
   ("permissions granted", "permissions_granted"),
   ("form filled", "form_filled"),
   ("data entered", "data_entered"),
   ("record exists", "record_exists"),
   ("data exists", "data_exists"),
   ("condition exists", "condition_exists"),
   ("file exists", "file_exists"),
   ("recipient exists", "recipient_exists"),
   ("sender exists", "sender_exists"),
   ("task exists", "task_exists"),
   ("item exists", "item_exists"),
   ("issue exists", "issue_exists"),
   ("error trigger", "error_trigger"),
   ("failure condition", "failure_condition"),
   ("admin role", "admin_role"),
   ("manager role", "manager_role"),
   ("user role", "user_role"),
   ("account active", "account_active"),
   ("form valid", "form_valid"),
   ("space available", "space_available")]

/-- `_get_assumption_type_weight`. -/
def getAssumptionTypeWeight (issue : AssumptionIssue)
    (typeWeights : List (String × ℚ)) : ℚ :=
  let assumptionKey := lowerStr issue.assumption
  match assumptionKeyMappings.find? (fun p => substrOf p.1 assumptionKey) with
  | some p => dictGet p.2 typeWeights 15
  | none =>
    if anySub ["browser", "chrome", "firefox", "safari", "edge"] assumptionKey then
      dictGet "browsers" typeWeights 20
    else if anySub ["mobile", "desktop", "tablet", "phone"] assumptionKey then
      dictGet "devices" typeWeights 20
    else if anySub ["ios", "android", "windows", "mac", "linux"] assumptionKey then
      dictGet "operating_systems" typeWeights 18
    else if anySub ["network", "wifi", "cellular", "broadband"] assumptionKey then
      dictGet "network" typeWeights 16
    else if anySub ["database", "mysql", "postgresql", "mongodb"] assumptionKey then
      dictGet "databases" typeWeights 24
    else if anySub ["api", "endpoint", "rest", "graphql"] assumptionKey then
      dictGet "apis" typeWeights 20
    else 15

/-- The `strong_patterns` of `_classify_assumption_strength`. -/
def strongPatterns : List (String × List String) :=
  [("Environment",
    ["browser", "device", "operating system", "database", "api", "network",
     "server", "infrastructure", "platform", "environment"]),
   ("State",
    ["user logged in", "authenticated", "authorized", "permissions granted",
     "admin role", "session active", "account active", "system configured"]),
   ("Data",
    ["user exists", "credentials exist", "test data prepared", "database populated",
     "external service available", "api endpoint configured"])]

/-- The `weak_patterns` of `_classify_assumption_strength`. -/
def weakPatterns : List (String × List String) :=
  [("Environment", ["internet connection", "power available", "display resolution"]),
   ("State", ["user preferences set", "notifications enabled", "theme selected"]),
   ("Data", ["sample data", "demo content", "placeholder text", "optional fields"])]

/-- `_classify_assumption_strength`. -/
def classifyAssumptionStrength (issue : AssumptionIssue) (componentType : String) : String :=
  let assumptionText := lowerStr issue.assumption
  if ((dictFind componentType strongPatterns).getD []).any
      (fun p => substrOf p assumptionText) then "STRONG"
  else if ((dictFind componentType weakPatterns).getD []).any
      (fun p => substrOf p assumptionText) then "WEAK"
  else if componentType = "Environment" then "STRONG"
  else if componentType = "State" then "STRONG"
  else "WEAK"

/-- `_calculate_component_with_strength`.  The `text_length` is the literal
constant 50 of the source ("Will be passed from main method if needed"). -/
def calculateComponentWithStrength (componentIssues : List AssumptionIssue)
    (componentType : String) : ℚ × String :=
  if componentIssues.isEmpty then (0, "NONE")
  else
    let hasStrong := componentIssues.any
      (fun i => classifyAssumptionStrength i componentType == "STRONG")
    let hasWeak := componentIssues.any
      (fun i => !(classifyAssumptionStrength i componentType == "STRONG"))
    let baseScore : ℚ := (componentIssues.map (fun i =>
      match dictFind componentType assumptionWeights with
      | some typeWeights => getAssumptionTypeWeight i typeWeights
      | none => 10)).sum
    let baseScore :=
      if componentIssues.length > 1 then
        baseScore + ((componentIssues.length : ℚ) - 1) * 5
      else baseScore
    let textLength : ℕ := 50
    let densityFactor : ℚ := (componentIssues.length : ℚ) / ((max textLength 5 : ℕ) : ℚ)
    let densityScore : ℚ :=
      if componentType = "State" then min 30 (densityFactor * 60)
      else if componentType = "Environment" then min 25 (densityFactor * 50)
      else min 20 (densityFactor * 40)
    let rawScore := baseScore + densityScore
    let finalScore := if rawScore > 70 then 70 + (rawScore - 70) * 0.4 else rawScore
    let finalScore := min 100 finalScore
    let strength := if hasStrong then "STRONG" else if hasWeak then "WEAK" else "UNKNOWN"
    (finalScore, strength)

/-- One `components` record of the assumption analysis result. -/
structure AsmComponent where
  count : ℕ
  strength : String
deriving DecidableEq

/-- The dict returned by `calculate_assumption_score`. -/
structure AsmResult where
  score : ℚ
  environment : AsmComponent
  data : AsmComponent
  state : AsmComponent
deriving DecidableEq

/-- `calculate_assumption_score`. -/
def calculateAssumptionScore (issues : List AssumptionIssue) (text : String) : AsmResult :=
  if issues.isEmpty then
    { score := 0,
      environment := { count := 0, strength := "NONE" },
      data := { count := 0, strength := "NONE" },
      state := { count := 0, strength := "NONE" } }
  else
    let environmentIssues := issues.filter (fun i => i.category == "Environment")
    let dataIssues := issues.filter (fun i => i.category == "Data")
    let stateIssues := issues.filter (fun i => i.category == "State")
    let environmentR := calculateComponentWithStrength environmentIssues "Environment"
    let dataR := calculateComponentWithStrength dataIssues "Data"
    let stateR := calculateComponentWithStrength stateIssues "State"
    let overallScore := environmentR.1 * 0.35 + dataR.1 * 0.25 + stateR.1 * 0.4
    { score := round1 overallScore,
      environment := { count := environmentIssues.length, strength := environmentR.2 },
      data := { count := dataIssues.length, strength := dataR.2 },
      state := { count := stateIssues.length, strength := stateR.2 } }

/-- `ReadinessLevel` enum. -/
inductive ReadinessLevel where
  | READY
  | NEEDS_CLARIFICATION
  | HIGH_RISK
deriving DecidableEq

/-- The weight-selection prologue of `calculate_readiness_score`: base weight
pair, then the severity multipliers, returned as
(ambiguity_weight, assumption_weight). -/
noncomputable def ambAsmWeights (ambiguityScore assumptionScore : ℝ) : ℝ × ℝ :=
  let p : ℝ × ℝ :=
    if assumptionScore > ambiguityScore then (0.2, 0.8)
    else if ambiguityScore > 60 then (0.7, 0.3)
    else (0.4, 0.6)
  let ambiguityWeight := if ambiguityScore > 70 then p.1 * 1.3 else p.1
  let assumptionWeight := if assumptionScore > 70 then p.2 * 1.5 else p.2
  (ambiguityWeight, assumptionWeight)

/-- `total_impact`:
`min(80, ambiguity_score ** 0.8) * ambiguity_weight
 + min(85, assumption_score ** 0.9) * assumption_weight`. -/
noncomputable def totalImpact (ambiguityScore assumptionScore : ℝ) : ℝ :=
  min 80 (ambiguityScore ^ (0.8 : ℝ)) * (ambAsmWeights ambiguityScore assumptionScore).1 +
    min 85 (assumptionScore ^ (0.9 : ℝ)) * (ambAsmWeights ambiguityScore assumptionScore).2

/-- The complexity factor as a function of the text length used. -/
noncomputable def complexityFactorOf (textLength : ℕ) : ℝ :=
  if textLength < 10 then 1.2
  else if textLength > 100 then 0.9
  else 1.0

/-- The tail of `calculate_readiness_score`: sigmoid-like normalization,
complexity adjustment, the two impact safeguards, and the final clamp to
[0, 95]. -/
noncomputable def readinessFromImpact (totalImpactV complexityFactor : ℝ) : ℝ :=
  let readiness := 100 / (1 + totalImpactV / 10)
  let readiness := readiness * complexityFactor
  let readiness :=
    if totalImpactV > 120 then max (readiness * 0.8) 10
    else if totalImpactV > 100 then max (readiness * 0.9) 15
    else readiness
  max 0 (min 95 readiness)

/-- `calculate_readiness_score`. -/
noncomputable def calculateReadinessScore (ambiguityScore assumptionScore : ℝ)
    (text : String) : ℝ :=
  readinessFromImpact (totalImpact ambiguityScore assumptionScore)
    (complexityFactorOf (textLengthPy text))

/-- Modelled from the spec: the reference readiness algorithm of spec S4.4 as
restated in claim C2.  It is the same computation as
`calculateReadinessScore` except that its complexity factor is driven by the
plain word count of the text (the spec states the factor in terms of
`word_count` with no special case for the empty string). -/
noncomputable def specReadinessScore (ambiguityScore assumptionScore : ℝ)
    (text : String) : ℝ :=
  readinessFromImpact (totalImpact ambiguityScore assumptionScore)
    (complexityFactorOf (wordCount text))

/-- `classify_readiness`. -/
noncomputable def classifyReadiness (readinessScore : ℝ) : ReadinessLevel :=
  if readinessScore ≥ 70 then ReadinessLevel.READY
  else if readinessScore ≥ 40 then ReadinessLevel.NEEDS_CLARIFICATION
  else ReadinessLevel.HIGH_RISK

/-- A formatted issue dict as produced by `_format_issues_with_impact` and
consumed by `_generate_clarifying_questions`: only the `type`, `message` and
`assumption` entries are read by question generation (`assumption` is absent
for ambiguity issues, and `issue.get("assumption", "")` defaults it to ""). -/
structure FormattedIssue where
  type : String
  message : String
  assumption : String := ""
deriving DecidableEq

/-- The `question_map` of `_get_ambiguity_question`. -/
def ambiguityQuestionMap : List (String × String) :=
  [("subjective term", "What specific, measurable criteria define success for this requirement?"),
   ("weak modality", "Is this a mandatory requirement or optional behavior?"),
   ("undefined reference", "What specific element or condition does this refer to?"),
   ("non-testable", "What specific, observable behavior would indicate success?")]

/-- `_get_ambiguity_question`. -/
def getAmbiguityQuestion (issue : FormattedIssue) : String :=
  let message := lowerStr issue.message
  match ambiguityQuestionMap.find? (fun p => substrOf p.1 message) with
  | some p => p.2
  | none => "What specific criteria should be used to evaluate this requirement?"

/-- The `question_map` of `_get_assumption_question`. -/
def assumptionQuestionMap : List (String × String) :=
  [("user exists", "What test user accounts should be prepared?"),
   ("credentials", "What user credentials are needed for testing?"),
   ("logged in", "Should the user be pre-authenticated for this test?"),
   ("permissions", "What user roles and permissions are required?"),
   ("browser", "Which browsers and versions should be supported?"),
   ("database", "What database state should exist before testing?"),
   ("environment", "What environmental conditions are required?"),
   ("data", "What test data should be prepared?")]

/-- `_get_assumption_question`. -/
def getAssumptionQuestion (issue : FormattedIssue) : String :=
  let assumption := lowerStr issue.assumption
  match assumptionQuestionMap.find? (fun p => substrOf p.1 assumption) with
  | some p => p.2
  | none => "What specific conditions or data are required for this test?"

/-- One iteration of the question-collection loop: append the issue-specific
question when it is non-empty (truthy) and not already present. -/
def questionStep (acc : List String) (issue : FormattedIssue) : List String :=
  if issue.type = "Ambiguity" then
    let q := getAmbiguityQuestion issue
    if q ≠ "" ∧ q ∉ acc then acc ++ [q] else acc
  else if issue.type = "Assumption" then
    let q := getAssumptionQuestion issue
    if q ≠ "" ∧ q ∉ acc then acc ++ [q] else acc
  else acc

/-- `_generate_clarifying_questions`: the two standard questions first, then
issue-specific questions, truncated to at most 8. -/
def generateClarifyingQuestions (issues : List FormattedIssue) (text : String) : List String :=
  let questions := ["What are the exact preconditions required for this test?",
                    "What is the expected result and how should it be verified?"]
  (issues.foldl questionStep questions).take 8

/-- A dynamically typed Python value, as far as `get_score_breakdown` needs
one: a float, a string, or a dict. -/
inductive PyVal where
  | num : ℚ → PyVal
  | str : String → PyVal
  | dict : List (String × PyVal) → PyVal

/-- The dict returned by `calculate_ambiguity_score`, as the Python value it
is at runtime. -/
def ambResultToPy (r : AmbResult) : PyVal :=
  .dict [("score", .num r.score), ("confidence", .str r.confidence),
         ("components", .dict [("lexical", .num r.components.lexical),
                               ("testability", .num r.components.testability),
                               ("references", .num r.components.references)])]

/-- The dict returned by `calculate_assumption_score`, as a Python value. -/
def asmResultToPy (r : AsmResult) : PyVal :=
  .dict [("score", .num r.score),
         ("components", .dict
           [("environment", .dict [("count", .num r.environment.count),
                                   ("strength", .str r.environment.strength)]),
            ("data", .dict [("count", .num r.data.count),
                            ("strength", .str r.data.strength)]),
            ("state", .dict [("count", .num r.state.count),
                             ("strength", .str r.state.strength)])])]

/-- `calculate_readiness_score` applied to dynamically typed arguments, as
`get_score_breakdown` calls it: the first statement evaluates
`assumption_score > ambiguity_score`, which raises `TypeError` unless both
operands are numbers; only for numbers does the computation proceed. -/
noncomputable def calculateReadinessScoreDyn (ambiguityScore assumptionScore : PyVal)
    (text : String) : Except String ℝ :=
  match ambiguityScore, assumptionScore with
  | .num a, .num s => .ok (calculateReadinessScore (a : ℝ) (s : ℝ) text)
  | _, _ => .error "TypeError"

/-- The result `get_score_breakdown` would build on its success path. -/
structure ScoreBreakdown where
  text : String
  ambiguityIssueCount : ℕ
  assumptionIssueCount : ℕ
  readinessScore : ℝ

/-- `OptimizedRequirementScorer.get_score_breakdown`: it passes the full
analysis dicts (not their `"score"` entries) to `calculate_readiness_score`,
both with the source's default `text=""`. -/
noncomputable def getScoreBreakdown (tokenize : String → List Token)
    (text : String) : Except String ScoreBreakdown := do
  let ambiguityIssues := detectAmbiguities tokenize text
  let assumptionIssues := detectAssumptions text
  let ambiguityScore := ambResultToPy (calculateAmbiguityScore ambiguityIssues "")
  let assumptionScore := asmResultToPy (calculateAssumptionScore assumptionIssues "")
  let readinessScore ← calculateReadinessScoreDyn ambiguityScore assumptionScore ""
  pure { text := text, ambiguityIssueCount := ambiguityIssues.length,
         assumptionIssueCount := assumptionIssues.length,
         readinessScore := readinessScore }

/-! ### Helper lemmas -/

lemma dictFind_mem {β : Type} {k : String} {l : List (String × β)} {v : β}
    (h : dictFind k l = some v) : ∃ p ∈ l, p.2 = v := by
  unfold dictFind at h
  rcases hf : l.find? (fun p => p.1 == k) with _ | p <;> rw [hf] at h
  · exact Option.noConfusion h
  · exact ⟨p, List.mem_of_find?_eq_some hf, by simpa using h⟩

lemma dictGet_nonneg {l : List (String × ℚ)} (hl : ∀ p ∈ l, 0 ≤ p.2)
    {k : String} {d : ℚ} (hd : 0 ≤ d) : 0 ≤ dictGet k l d := by
  unfold dictGet
  rcases hf : dictFind k l with _ | v
  · simpa using hd
  · obtain ⟨p, hp, hpv⟩ := dictFind_mem hf
    simpa [← hpv] using hl p hp

lemma getSubjectiveTermWeight_nonneg (issue : AmbiguityIssue)
    (cw : List (String × ℚ)) (hcw : ∀ p ∈ cw, 0 ≤ p.2) :
    0 ≤ getSubjectiveTermWeight issue cw := by
  unfold getSubjectiveTermWeight
  split_ifs with h
  · norm_num
  · cases hf : subjectiveCategoryMapping.find?
        (fun p => p.2.contains (lowerStr issue.text)) with
    | none => simp only [hf]; exact dictGet_nonneg hcw (by norm_num)
    | some p => simp only [hf]; exact dictGet_nonneg hcw (by norm_num)

lemma issueWeight_nonneg (issue : AmbiguityIssue) : 0 ≤ issueWeight issue := by
  unfold issueWeight
  cases hf : dictFind issue.type ambiguityWeights with
  | none => simp
  | some v =>
    obtain ⟨p, hp, hpv⟩ := dictFind_mem hf
    simp only [ambiguityWeights, List.mem_cons, List.not_mem_nil, or_false] at hp
    rcases hp with rfl | rfl | rfl | rfl <;> cases hpv <;> simp only
    · exact getSubjectiveTermWeight_nonneg issue _ (by decide)
    · exact getSubjectiveTermWeight_nonneg issue _ (by decide)
    · norm_num
    · norm_num

lemma issueWeight_sum_nonneg (issues : List AmbiguityIssue) :
    0 ≤ (issues.map issueWeight).sum := by
  apply List.sum_nonneg
  intro x hx
  obtain ⟨i, _, rfl⟩ := List.mem_map.1 hx
  exact issueWeight_nonneg i

lemma compressMin_nonneg {raw : ℚ} (h : 0 ≤ raw) :
    0 ≤ (if raw > 80 then 80 + (raw - 80) * 0.3 else min 100 raw) := by
  split_ifs with hr
  · linarith
  · exact le_min (by norm_num) h

lemma calculateComponentScore_nonneg (issues : List AmbiguityIssue)
    (text : String) (ctype : String) :
    0 ≤ calculateComponentScore issues text ctype := by
  have hbase := issueWeight_sum_nonneg issues
  unfold calculateComponentScore
  dsimp only
  by_cases he : issues.isEmpty
  · rw [if_pos he]
  · rw [if_neg he]
    apply compressMin_nonneg
    apply add_nonneg hbase
    split_ifs <;> exact le_min (by norm_num) (by positivity)

lemma round1_nonneg {q : ℚ} (h : 0 ≤ q) : 0 ≤ round1 q := by
  unfold round1
  have h1 : (0 : ℤ) ≤ ⌊q * 10 + 1 / 2⌋ := by
    apply Int.le_floor.2; push_cast; linarith
  have h2 : (0 : ℚ) ≤ ((⌊q * 10 + 1 / 2⌋ : ℤ) : ℚ) := by exact_mod_cast h1
  linarith

lemma round1_le_100 {q : ℚ} (h : q ≤ 100) : round1 q ≤ 100 := by
  unfold round1
  have h1 : ⌊q * 10 + 1 / 2⌋ < (1001 : ℤ) := by
    apply Int.floor_lt.2; push_cast; linarith
  have h2 : ((⌊q * 10 + 1 / 2⌋ : ℤ) : ℚ) ≤ 1000 := by exact_mod_cast Int.lt_add_one_iff.1 h1
  linarith

lemma getAssumptionTypeWeight_nonneg (issue : AssumptionIssue)
    (tw : List (String × ℚ)) (htw : ∀ p ∈ tw, 0 ≤ p.2) :
    0 ≤ getAssumptionTypeWeight issue tw := by
  unfold getAssumptionTypeWeight
  cases hf : assumptionKeyMappings.find?
      (fun p => substrOf p.1 (lowerStr issue.assumption)) with
  | some p => simp only [hf]; exact dictGet_nonneg htw (by norm_num)
  | none =>
    simp only [hf]
    split_ifs <;> first
      | exact dictGet_nonneg htw (by norm_num)
      | norm_num

lemma assumptionWeights_tables_nonneg {k : String} {tw : List (String × ℚ)}
    (h : dictFind k assumptionWeights = some tw) : ∀ p ∈ tw, 0 ≤ p.2 := by
  obtain ⟨p, hp, hpv⟩ := dictFind_mem h
  simp only [assumptionWeights, List.mem_cons, List.not_mem_nil, or_false] at hp
  rcases hp with rfl | rfl | rfl <;> cases hpv <;> decide

lemma calculateComponentWithStrength_fst_mem (issues : List AssumptionIssue)
    (ctype : String) :
    0 ≤ (calculateComponentWithStrength issues ctype).1 ∧
      (calculateComponentWithStrength issues ctype).1 ≤ 100 := by
  unfold calculateComponentWithStrength
  dsimp only
  by_cases he : issues.isEmpty
  · rw [if_pos he]; exact ⟨le_refl 0, by norm_num⟩
  · rw [if_neg he]
    dsimp only
    refine ⟨le_min (by norm_num) ?_, min_le_left _ _⟩
    have hbase : 0 ≤ (issues.map (fun i =>
        match dictFind ctype assumptionWeights with
        | some typeWeights => getAssumptionTypeWeight i typeWeights
        | none => 10)).sum := by
      apply List.sum_nonneg
      intro x hx
      obtain ⟨i, _, rfl⟩ := List.mem_map.1 hx
      cases hf : dictFind ctype assumptionWeights with
      | some typeWeights =>
        simp only [hf]
        exact getAssumptionTypeWeight_nonneg i typeWeights
          (assumptionWeights_tables_nonneg hf)
      | none => simp only [hf]; norm_num
    have hne : issues ≠ [] := fun hnil => he (by simp [hnil])
    have hlen1 : (1 : ℚ) ≤ (issues.length : ℚ) := by
      exact_mod_cast List.length_pos.2 hne
    have hmin30 : 0 ≤ min (30 : ℚ)
        ((issues.length : ℚ) / ((max (50 : ℕ) 5 : ℕ) : ℚ) * 60) :=
      le_min (by norm_num) (by positivity)
    have hmin25 : 0 ≤ min (25 : ℚ)
        ((issues.length : ℚ) / ((max (50 : ℕ) 5 : ℕ) : ℚ) * 50) :=
      le_min (by norm_num) (by positivity)
    have hmin20 : 0 ≤ min (20 : ℚ)
        ((issues.length : ℚ) / ((max (50 : ℕ) 5 : ℕ) : ℚ) * 40) :=
      le_min (by norm_num) (by positivity)
    split_ifs <;> linarith

lemma calculateAssumptionScore_score_mem (issues : List AssumptionIssue)
    (text : String) :
    0 ≤ (calculateAssumptionScore issues text).score ∧
      (calculateAssumptionScore issues text).score ≤ 100 := by
  unfold calculateAssumptionScore
  dsimp only
  by_cases he : issues.isEmpty
  · rw [if_pos he]; exact ⟨le_refl 0, by norm_num⟩
  · rw [if_neg he]
    dsimp only
    obtain ⟨he0, he1⟩ := calculateComponentWithStrength_fst_mem
      (issues.filter (fun i => i.category == "Environment")) "Environment"
    obtain ⟨hd0, hd1⟩ := calculateComponentWithStrength_fst_mem
      (issues.filter (fun i => i.category == "Data")) "Data"
    obtain ⟨hs0, hs1⟩ := calculateComponentWithStrength_fst_mem
      (issues.filter (fun i => i.category == "State")) "State"
    constructor
    · apply round1_nonneg; nlinarith
    · apply round1_le_100; nlinarith

lemma calculateAmbiguityScore_components_nonneg (issues : List AmbiguityIssue)
    (text : String) :
    0 ≤ (calculateAmbiguityScore issues text).components.lexical ∧
      0 ≤ (calculateAmbiguityScore issues text).components.testability ∧
      0 ≤ (calculateAmbiguityScore issues text).components.references ∧
      0 ≤ (calculateAmbiguityScore issues text).score := by
  unfold calculateAmbiguityScore
  dsimp only
  by_cases he : issues.isEmpty
  · rw [if_pos he]
    refine ⟨le_refl 0, le_refl 0, le_refl 0, le_refl 0⟩
  · rw [if_neg he]
    dsimp only
    have hl := calculateComponentScore_nonneg
      (categorizeAmbiguityIssues issues).1 text "lexical"
    have ht := calculateComponentScore_nonneg
      (categorizeAmbiguityIssues issues).2.1 text "testability"
    have hr := calculateComponentScore_nonneg
      (categorizeAmbiguityIssues issues).2.2 text "references"
    exact ⟨round1_nonneg hl, round1_nonneg ht, round1_nonneg hr,
      round1_nonneg (by nlinarith)⟩

/-! ### Readiness-side lemmas (real arithmetic) -/

lemma complexityFactorOf_mem (n : ℕ) :
    0.9 ≤ complexityFactorOf n ∧ complexityFactorOf n ≤ 1.2 := by
  unfold complexityFactorOf
  split_ifs <;> norm_num

lemma readinessFromImpact_mem (totalImpactV complexityFactor : ℝ) :
    0 ≤ readinessFromImpact totalImpactV complexityFactor ∧
      readinessFromImpact totalImpactV complexityFactor ≤ 95 := by
  unfold readinessFromImpact
  dsimp only
  constructor
  · exact le_max_left 0 _
  · exact max_le (by norm_num) (min_le_left 95 _)

lemma readinessFromImpact_zero_ge_70 (complexityFactor : ℝ)
    (h : 0.9 ≤ complexityFactor) :
    70 ≤ readinessFromImpact 0 complexityFactor := by
  unfold readinessFromImpact
  dsimp only
  rw [if_neg (by norm_num : ¬(0 : ℝ) > 120), if_neg (by norm_num : ¬(0 : ℝ) > 100)]
  have h1 : (100 : ℝ) / (1 + 0 / 10) = 100 := by norm_num
  rw [h1]
  have h2 : (90 : ℝ) ≤ 100 * complexityFactor := by linarith
  have h3 : (70 : ℝ) ≤ min 95 (100 * complexityFactor) :=
    le_min (by norm_num) (by linarith)
  exact le_trans h3 (le_max_right 0 _)

lemma readinessFromImpact_lt_40 (totalImpactV complexityFactor : ℝ)
    (hT : 26 ≤ totalImpactV) (hcf0 : 0 ≤ complexityFactor)
    (hcf : complexityFactor ≤ 1.2) :
    readinessFromImpact totalImpactV complexityFactor < 40 := by
  unfold readinessFromImpact
  dsimp only
  have hden : (3.6 : ℝ) ≤ 1 + totalImpactV / 10 := by linarith
  have hden0 : (0 : ℝ) < 1 + totalImpactV / 10 := by linarith
  have hr0 : (100 : ℝ) / (1 + totalImpactV / 10) ≤ 100 / 3.6 := by
    apply div_le_div_of_nonneg_left (by norm_num) (by norm_num) hden
  have hr0n : (0 : ℝ) ≤ 100 / (1 + totalImpactV / 10) := by positivity
  have hr1 : 100 / (1 + totalImpactV / 10) * complexityFactor ≤ 100 / 3.6 * 1.2 :=
    mul_le_mul hr0 hcf hcf0 (by norm_num)
  have hr1' : 100 / (1 + totalImpactV / 10) * complexityFactor < 40 := by
    have : (100 : ℝ) / 3.6 * 1.2 < 40 := by norm_num
    linarith
  have hr1n : (0 : ℝ) ≤ 100 / (1 + totalImpactV / 10) * complexityFactor :=
    mul_nonneg hr0n hcf0
  apply max_lt (by norm_num)
  apply lt_of_le_of_lt (min_le_right 95 _)
  split_ifs with h1 h2
  · exact max_lt (by linarith) (by norm_num)
  · exact max_lt (by linarith) (by norm_num)
  · exact hr1'

lemma rpow_pow_eq {x : ℝ} (hx : 0 ≤ x) (e : ℝ) (n : ℕ) :
    (x ^ e) ^ (n : ℕ) = x ^ (e * (n : ℝ)) := by
  rw [← Real.rpow_natCast (x ^ e) n, ← Real.rpow_mul hx]

lemma le_rpow_80_09 : (50 : ℝ) ≤ (80 : ℝ) ^ (0.9 : ℝ) := by
  have key : ((80 : ℝ) ^ (0.9 : ℝ)) ^ (10 : ℕ) = (80 : ℝ) ^ (9 : ℕ) := by
    rw [rpow_pow_eq (by norm_num : (0 : ℝ) ≤ 80)]
    rw [show (0.9 : ℝ) * (10 : ℕ) = ((9 : ℕ) : ℝ) by norm_num]
    rw [Real.rpow_natCast]
  have h10 : (50 : ℝ) ^ (10 : ℕ) ≤ ((80 : ℝ) ^ (0.9 : ℝ)) ^ (10 : ℕ) := by
    rw [key]; norm_num
  exact le_of_pow_le_pow_left₀ (by norm_num) (Real.rpow_nonneg (by norm_num) _) h10

lemma le_rpow_80_08 : (4 : ℝ) ≤ (80 : ℝ) ^ (0.8 : ℝ) := by
  have key : ((80 : ℝ) ^ (0.8 : ℝ)) ^ (10 : ℕ) = (80 : ℝ) ^ (8 : ℕ) := by
    rw [rpow_pow_eq (by norm_num : (0 : ℝ) ≤ 80)]
    rw [show (0.8 : ℝ) * (10 : ℕ) = ((8 : ℕ) : ℝ) by norm_num]
    rw [Real.rpow_natCast]
  have h10 : (4 : ℝ) ^ (10 : ℕ) ≤ ((80 : ℝ) ^ (0.8 : ℝ)) ^ (10 : ℕ) := by
    rw [key]; norm_num
  exact le_of_pow_le_pow_left₀ (by norm_num) (Real.rpow_nonneg (by norm_num) _) h10

lemma le_rpow_100_09 : (10 : ℝ) ≤ (100 : ℝ) ^ (0.9 : ℝ) := by
  have key : ((100 : ℝ) ^ (0.9 : ℝ)) ^ (10 : ℕ) = (100 : ℝ) ^ (9 : ℕ) := by
    rw [rpow_pow_eq (by norm_num : (0 : ℝ) ≤ 100)]
    rw [show (0.9 : ℝ) * (10 : ℕ) = ((9 : ℕ) : ℝ) by norm_num]
    rw [Real.rpow_natCast]
  have h10 : (10 : ℝ) ^ (10 : ℕ) ≤ ((100 : ℝ) ^ (0.9 : ℝ)) ^ (10 : ℕ) := by
    rw [key]; norm_num
  exact le_of_pow_le_pow_left₀ (by norm_num) (Real.rpow_nonneg (by norm_num) _) h10

lemma rpow_100_09_le : (100 : ℝ) ^ (0.9 : ℝ) ≤ 80 := by
  have key : ((100 : ℝ) ^ (0.9 : ℝ)) ^ (10 : ℕ) = (100 : ℝ) ^ (9 : ℕ) := by
    rw [rpow_pow_eq (by norm_num : (0 : ℝ) ≤ 100)]
    rw [show (0.9 : ℝ) * (10 : ℕ) = ((9 : ℕ) : ℝ) by norm_num]
    rw [Real.rpow_natCast]
  have h10 : ((100 : ℝ) ^ (0.9 : ℝ)) ^ (10 : ℕ) ≤ (80 : ℝ) ^ (10 : ℕ) := by
    rw [key]; norm_num
  exact le_of_pow_le_pow_left₀ (by norm_num) (by norm_num) h10

lemma totalImpact_zero_zero : totalImpact 0 0 = 0 := by
  unfold totalImpact ambAsmWeights
  dsimp only
  rw [Real.zero_rpow (by norm_num : (0.8 : ℝ) ≠ 0),
    Real.zero_rpow (by norm_num : (0.9 : ℝ) ≠ 0)]
  rw [min_eq_right (by norm_num : (0 : ℝ) ≤ 80),
    min_eq_right (by norm_num : (0 : ℝ) ≤ 85)]
  ring

lemma totalImpact_ge_26 (ambiguityScore assumptionScore : ℝ)
    (ha : 80 ≤ ambiguityScore) (hs : 80 ≤ assumptionScore) :
    26 ≤ totalImpact ambiguityScore assumptionScore := by
  have hrs : (50 : ℝ) ≤ assumptionScore ^ (0.9 : ℝ) :=
    le_trans le_rpow_80_09 (Real.rpow_le_rpow (by norm_num) hs (by norm_num))
  have hmins : (50 : ℝ) ≤ min 85 (assumptionScore ^ (0.9 : ℝ)) :=
    le_min (by norm_num) hrs
  have hra : (4 : ℝ) ≤ ambiguityScore ^ (0.8 : ℝ) :=
    le_trans le_rpow_80_08 (Real.rpow_le_rpow (by norm_num) ha (by norm_num))
  have hmina : (4 : ℝ) ≤ min 80 (ambiguityScore ^ (0.8 : ℝ)) :=
    le_min (by norm_num) hra
  unfold totalImpact ambAsmWeights
  dsimp only
  rw [if_pos (show ambiguityScore > 70 by linarith),
    if_pos (show assumptionScore > 70 by linarith)]
  by_cases hgt : assumptionScore > ambiguityScore
  · rw [if_pos hgt]
    dsimp only
    nlinarith
  · rw [if_neg hgt, if_pos (show ambiguityScore > 60 by linarith)]
    dsimp only
    nlinarith

lemma issueWeight_weak (i : AmbiguityIssue) (h : i.type = "Weak modality") :
    issueWeight i = 8 := by
  unfold issueWeight
  rw [h]
  rw [show dictFind "Weak modality" ambiguityWeights =
      some (AmbWeight.table weakModalityCategoryWeights) from rfl]
  dsimp only
  unfold getSubjectiveTermWeight
  rw [if_pos (show i.type ≠ "Subjective term" by rw [h]; decide)]

lemma categorize_weak_replicate (i : AmbiguityIssue) (h : i.type = "Weak modality")
    (n : ℕ) :
    categorizeAmbiguityIssues (List.replicate n i) =
      (List.replicate n i, List.replicate n i, ([] : List AmbiguityIssue)) := by
  induction n with
  | zero => rfl
  | succ n ih =>
    rw [List.replicate_succ]
    simp only [categorizeAmbiguityIssues]
    rw [ih]
    dsimp only
    rw [if_neg (show ¬i.type = "Subjective term" by rw [h]; decide),
      if_neg (show ¬i.type = "Non-testable statement" by rw [h]; decide),
      if_neg (show ¬i.type = "Undefined reference" by rw [h]; decide),
      if_pos h]

lemma componentScore_weak25_testability (i : AmbiguityIssue)
    (h : i.type = "Weak modality") :
    calculateComponentScore (List.replicate 25 i) "" "testability" = 128 := by
  have hbase : ((List.replicate 25 i).map issueWeight).sum = 200 := by
    rw [List.map_replicate, issueWeight_weak i h, List.sum_replicate]
    norm_num
  unfold calculateComponentScore
  rw [if_neg (by simp : ¬(List.replicate 25 i).isEmpty = true)]
  dsimp only
  rw [hbase]
  rw [if_neg (show ¬("testability" = "lexical") by decide),
    if_pos (show "testability" = "testability" from rfl)]
  rw [show (List.replicate 25 i).length = 25 from by simp]
  rw [show ((25 : ℕ) : ℚ) / ((max (textLengthPy "") 5 : ℕ) : ℚ) * 80 = 40 from by
    rw [show textLengthPy "" = 50 from rfl]; norm_num]
  rw [min_self]
  rw [if_pos (show (200 : ℚ) + 40 > 80 by norm_num)]
  norm_num

lemma componentScore_weak25_lexical (i : AmbiguityIssue)
    (h : i.type = "Weak modality") :
    calculateComponentScore (List.replicate 25 i) "" "lexical" = 125 := by
  have hbase : ((List.replicate 25 i).map issueWeight).sum = 200 := by
    rw [List.map_replicate, issueWeight_weak i h, List.sum_replicate]
    norm_num
  unfold calculateComponentScore
  rw [if_neg (by simp : ¬(List.replicate 25 i).isEmpty = true)]
  dsimp only
  rw [hbase]
  rw [if_pos (show "lexical" = "lexical" from rfl)]
  rw [show (List.replicate 25 i).length = 25 from by simp]
  rw [show ((25 : ℕ) : ℚ) / ((max (textLengthPy "") 5 : ℕ) : ℚ) * 60 = 30 from by
    rw [show textLengthPy "" = 50 from rfl]; norm_num]
  rw [min_self]
  rw [if_pos (show (200 : ℚ) + 30 > 80 by norm_num)]
  norm_num

lemma ambScore_weak25 (i : AmbiguityIssue) (h : i.type = "Weak modality") :
    100 < (calculateAmbiguityScore (List.replicate 25 i) "").components.testability ∧
    100 < (calculateAmbiguityScore (List.replicate 25 i) "").score := by
  unfold calculateAmbiguityScore
  rw [if_neg (by simp : ¬(List.replicate 25 i).isEmpty = true)]
  rw [categorize_weak_replicate _ h 25]
  dsimp only
  rw [componentScore_weak25_testability _ h, componentScore_weak25_lexical _ h]
  rw [show calculateComponentScore [] "" "references" = 0 from rfl]
  constructor
  · unfold round1
    norm_num
  · unfold round1
    norm_num

lemma classifyReadiness_zero (text : String) :
    classifyReadiness (calculateReadinessScore 0 0 text) = ReadinessLevel.READY := by
  unfold calculateReadinessScore
  rw [totalImpact_zero_zero]
  have h := readinessFromImpact_zero_ge_70 (complexityFactorOf (textLengthPy text))
    (complexityFactorOf_mem _).1
  unfold classifyReadiness
  rw [if_pos (by linarith)]

/-! ### Claim theorems -/

/-- C1 (amended): every ambiguity component score and the overall ambiguity
score are nonnegative (but, unlike the claim, not bounded by 100 — see the
counterexample); the three assumption component scores and the overall
assumption score lie in [0, 100]; the readiness score lies in [0, 95]. -/
theorem C1_amended_bounds :
    ∀ (ambIssues : List AmbiguityIssue) (asmIssues : List AssumptionIssue)
      (text : String) (a s : ℝ),
      (0 ≤ (calculateAmbiguityScore ambIssues text).components.lexical ∧
        0 ≤ (calculateAmbiguityScore ambIssues text).components.testability ∧
        0 ≤ (calculateAmbiguityScore ambIssues text).components.references ∧
        0 ≤ (calculateAmbiguityScore ambIssues text).score) ∧
      (0 ≤ (calculateComponentWithStrength
            (asmIssues.filter (fun i => i.category == "Environment")) "Environment").1 ∧
        (calculateComponentWithStrength
            (asmIssues.filter (fun i => i.category == "Environment")) "Environment").1 ≤ 100) ∧
      (0 ≤ (calculateComponentWithStrength
            (asmIssues.filter (fun i => i.category == "Data")) "Data").1 ∧
        (calculateComponentWithStrength
            (asmIssues.filter (fun i => i.category == "Data")) "Data").1 ≤ 100) ∧
      (0 ≤ (calculateComponentWithStrength
            (asmIssues.filter (fun i => i.category == "State")) "State").1 ∧
        (calculateComponentWithStrength
            (asmIssues.filter (fun i => i.category == "State")) "State").1 ≤ 100) ∧
      (0 ≤ (calculateAssumptionScore asmIssues text).score ∧
        (calculateAssumptionScore asmIssues text).score ≤ 100) ∧
      (0 ≤ calculateReadinessScore a s text ∧ calculateReadinessScore a s text ≤ 95) := by
  intro ambIssues asmIssues text a s
  exact ⟨calculateAmbiguityScore_components_nonneg ambIssues text,
    calculateComponentWithStrength_fst_mem _ "Environment",
    calculateComponentWithStrength_fst_mem _ "Data",
    calculateComponentWithStrength_fst_mem _ "State",
    calculateAssumptionScore_score_mem asmIssues text,
    readinessFromImpact_mem _ _⟩

/-- C1 (counterexample): an issue list of 25 Weak modality issues on the
empty text drives the testability component score to 128 and the overall
ambiguity score to 101.5 — both above 100, refuting the claimed [0, 100]
bound (the compression branch `80 + (raw - 80) * 0.3` of
`_calculate_component_score` is not clamped at 100). -/
theorem C1_counterexample :
    100 < (calculateAmbiguityScore (List.replicate 25
        { type := "Weak modality", text := "should",
          message := "Optional/weak requirement term: \x27should\x27" })
        "").components.testability ∧
    100 < (calculateAmbiguityScore (List.replicate 25
        { type := "Weak modality", text := "should",
          message := "Optional/weak requirement term: \x27should\x27" })
        "").score :=
  ambScore_weak25 _ rfl

/-- C3 (counterexample): on the empty input the zero-issue early return of
`calculate_ambiguity_score` reports confidence "HIGH", not "LOW" as the claim
states. -/
theorem C3_counterexample :
    (calculateAmbiguityScore (detectAmbiguities wsTokenize "") "").confidence ≠ "LOW" := by
  decide

/-- C3 (amended): the empty string yields zero ambiguity and zero assumption
issues, ambiguity score 0.0 with confidence "HIGH" (not "LOW"), assumption
score 0.0 with all three component strengths "NONE", and a readiness score
classified READY. -/
theorem C3_amended_empty_input :
    detectAmbiguities wsTokenize "" = [] ∧
    detectAssumptions "" = [] ∧
    calculateAmbiguityScore [] "" =
      { score := 0, confidence := "HIGH",
        components := { lexical := 0, testability := 0, references := 0 } } ∧
    calculateAssumptionScore [] "" =
      { score := 0, environment := { count := 0, strength := "NONE" },
        data := { count := 0, strength := "NONE" },
        state := { count := 0, strength := "NONE" } } ∧
    classifyReadiness (calculateReadinessScore 0 0 "") = ReadinessLevel.READY :=
  ⟨by decide, by decide, by decide, by decide, classifyReadiness_zero ""⟩

/-- C5 (counterexample): a weak-modality token whose text is not found by the
substring search (here: searching "should" in "x" from index 50, which
returns the sentinel -1) produces an issue whose offsets are the integers
-1 and -1 + 6 = 5, not null as the claim states. -/
theorem C5_counterexample :
    strFind (lowerStr "x") "should" 50 = -1 ∧
    (detectWeakModality [{ text := "should", pos := "", dep := "", idx := 50 }] "x").map
        (fun i => (i.start_char, i.end_char)) =
      [(some (-1 : Int), some (5 : Int))] := by
  decide

/-- C7 (counterexample): the text "Retry if possible" contains the fixed
multi-word phrase "if possible", yet the ambiguity detector emits no issue at
all — the phrase entries of `weak_modality_terms` can never match a single
token. -/
theorem C7_counterexample :
    substrOf "if possible" "Retry if possible" = true ∧
    detectAmbiguities wsTokenize "Retry if possible" = [] := by
  decide

/-- C4: readiness classification boundaries: scores (0, 0) classify READY
(for every text), and any score pair with both scores at least 80 classifies
HIGH_RISK (for every text). -/
theorem C4_readiness_boundaries :
    (∀ text : String,
      classifyReadiness (calculateReadinessScore 0 0 text) = ReadinessLevel.READY) ∧
    (∀ (ambiguityScore assumptionScore : ℝ) (text : String),
      80 ≤ ambiguityScore → 80 ≤ assumptionScore →
      classifyReadiness (calculateReadinessScore ambiguityScore assumptionScore text) =
        ReadinessLevel.HIGH_RISK) := by
  constructor
  · exact classifyReadiness_zero
  · intro a s text ha hs
    have h26 := totalImpact_ge_26 a s ha hs
    have hcf := complexityFactorOf_mem (textLengthPy text)
    have h40 := readinessFromImpact_lt_40 (totalImpact a s)
      (complexityFactorOf (textLengthPy text)) h26 (by linarith [hcf.1]) hcf.2
    unfold calculateReadinessScore
    unfold classifyReadiness
    rw [if_neg (by linarith), if_neg (by linarith)]

/-- C4 witness: at scores (80, 80) on the empty text the classification is
HIGH_RISK. -/
theorem C4_readiness_boundaries_witness :
    classifyReadiness (calculateReadinessScore 80 80 "") = ReadinessLevel.HIGH_RISK :=
  C4_readiness_boundaries.2 80 80 "" (by norm_num) (by norm_num)

lemma readinessFromImpact_plain (totalImpactV complexityFactor : ℝ)
    (h120 : ¬totalImpactV > 120) (h100 : ¬totalImpactV > 100)
    (hub : 100 / (1 + totalImpactV / 10) * complexityFactor ≤ 95)
    (hlb : 0 ≤ 100 / (1 + totalImpactV / 10) * complexityFactor) :
    readinessFromImpact totalImpactV complexityFactor =
      100 / (1 + totalImpactV / 10) * complexityFactor := by
  unfold readinessFromImpact
  dsimp only
  rw [if_neg h120, if_neg h100, min_eq_right hub, max_eq_right hlb]

lemma totalImpact_0_100 : totalImpact 0 100 = (100 : ℝ) ^ (0.9 : ℝ) * 1.2 := by
  unfold totalImpact ambAsmWeights
  dsimp only
  rw [if_pos (show (100 : ℝ) > 0 by norm_num)]
  rw [if_neg (show ¬(0 : ℝ) > 70 by norm_num), if_pos (show (100 : ℝ) > 70 by norm_num)]
  dsimp only
  rw [Real.zero_rpow (by norm_num : (0.8 : ℝ) ≠ 0)]
  rw [min_eq_right (show (0 : ℝ) ≤ 80 by norm_num)]
  rw [min_eq_right (le_trans rpow_100_09_le (by norm_num : (80 : ℝ) ≤ 85))]
  ring

/-- C2 (counterexample): at scores (0, 100) and the empty text the code and
the spec reference algorithm disagree: the code takes word count 50 for the
empty (falsy) string, giving complexity factor 1.0, while the spec word count
0 gives factor 1.2, and the resulting readiness scores differ. -/
theorem C2_counterexample :
    calculateReadinessScore 0 100 "" ≠ specReadinessScore 0 100 "" := by
  have hP1 : (10 : ℝ) ≤ (100 : ℝ) ^ (0.9 : ℝ) := le_rpow_100_09
  have hP2 : (100 : ℝ) ^ (0.9 : ℝ) ≤ 80 := rpow_100_09_le
  have hT1 : (12 : ℝ) ≤ (100 : ℝ) ^ (0.9 : ℝ) * 1.2 := by linarith
  have hT2 : (100 : ℝ) ^ (0.9 : ℝ) * 1.2 ≤ 96 := by linarith
  have hden : (2.2 : ℝ) ≤ 1 + (100 : ℝ) ^ (0.9 : ℝ) * 1.2 / 10 := by linarith
  have hden0 : (0 : ℝ) < 1 + (100 : ℝ) ^ (0.9 : ℝ) * 1.2 / 10 := by linarith
  have hr : 100 / (1 + (100 : ℝ) ^ (0.9 : ℝ) * 1.2 / 10) ≤ 100 / 2.2 :=
    div_le_div_of_nonneg_left (by norm_num) (by norm_num) hden
  have hrpos : (0 : ℝ) < 100 / (1 + (100 : ℝ) ^ (0.9 : ℝ) * 1.2 / 10) := by positivity
  unfold calculateReadinessScore specReadinessScore
  rw [totalImpact_0_100]
  rw [show textLengthPy "" = 50 from rfl, show wordCount "" = 0 from rfl]
  rw [show complexityFactorOf 50 = 1 from by unfold complexityFactorOf; norm_num]
  rw [show complexityFactorOf 0 = 1.2 from by unfold complexityFactorOf; norm_num]
  rw [readinessFromImpact_plain _ _ (by linarith) (by linarith)
      (by nlinarith) (by positivity)]
  rw [readinessFromImpact_plain _ _ (by linarith) (by linarith)
      (by nlinarith) (by positivity)]
  intro heq
  nlinarith

/-- C2 (amended): for scores in [0, 100] and every nonempty text, the code's
`calculate_readiness_score` computes exactly the spec's reference algorithm;
the two differ only on the empty string, where the code substitutes a default
word count of 50 for the spec's word count 0. -/
theorem C2_amended_refinement :
    ∀ (ambiguityScore assumptionScore : ℝ) (text : String),
      0 ≤ ambiguityScore → ambiguityScore ≤ 100 →
      0 ≤ assumptionScore → assumptionScore ≤ 100 → text ≠ "" →
      specReadinessScore ambiguityScore assumptionScore text =
        calculateReadinessScore ambiguityScore assumptionScore text := by
  intro a s text _ _ _ _ ht
  unfold specReadinessScore calculateReadinessScore textLengthPy
  rw [if_neg ht]

/-- C2 witness: the amended refinement at scores (50, 50) on a concrete
nonempty text. -/
theorem C2_amended_refinement_witness :
    specReadinessScore 50 50 "Admin deletes the user record" =
      calculateReadinessScore 50 50 "Admin deletes the user record" :=
  C2_amended_refinement 50 50 "Admin deletes the user record"
    (by norm_num) (by norm_num) (by norm_num) (by norm_num) (by decide)

/-- C6: the text "The system should log errors" produces exactly one issue —
a Weak modality issue for "should" — and, in general, every Weak modality
issue of an issue list is placed in both the lexical and the testability
partition by the component categorization of `calculate_ambiguity_score`. -/
theorem C6_weak_modality :
    detectAmbiguities wsTokenize "The system should log errors" =
      [{ type := "Weak modality", text := "should",
         message := "Optional/weak requirement term: \x27should\x27",
         start_char := some 11, end_char := some 17 }] ∧
    (∀ (issues : List AmbiguityIssue) (i : AmbiguityIssue),
      i ∈ issues → i.type = "Weak modality" →
      i ∈ (categorizeAmbiguityIssues issues).1 ∧
        i ∈ (categorizeAmbiguityIssues issues).2.1) := by
  constructor
  · decide
  · intro issues
    induction issues with
    | nil => intro i hi; cases hi
    | cons a tl ih =>
      intro i hi htype
      simp only [categorizeAmbiguityIssues]
      rcases List.mem_cons.1 hi with rfl | hmem
      · rw [if_neg (by rw [htype]; decide), if_neg (by rw [htype]; decide),
          if_neg (by rw [htype]; decide), if_pos htype]
        exact ⟨List.mem_cons_self _ _, List.mem_cons_self _ _⟩
      · have hprev := ih i hmem htype
        split_ifs with h1 h2 h3 h4
        · exact ⟨List.mem_cons_of_mem _ hprev.1, hprev.2⟩
        · exact ⟨hprev.1, List.mem_cons_of_mem _ hprev.2⟩
        · exact hprev
        · exact ⟨List.mem_cons_of_mem _ hprev.1, List.mem_cons_of_mem _ hprev.2⟩
        · exact hprev

/-- C6 witness: the dual placement applied to a singleton list holding the
concrete "should" issue. -/
theorem C6_weak_modality_witness :
    ({ type := "Weak modality", text := "should",
       message := "Optional/weak requirement term: \x27should\x27",
       start_char := some 11, end_char := some 17 } : AmbiguityIssue) ∈
      (categorizeAmbiguityIssues
        [{ type := "Weak modality", text := "should",
           message := "Optional/weak requirement term: \x27should\x27",
           start_char := some 11, end_char := some 17 }]).1 ∧
    ({ type := "Weak modality", text := "should",
       message := "Optional/weak requirement term: \x27should\x27",
       start_char := some 11, end_char := some 17 } : AmbiguityIssue) ∈
      (categorizeAmbiguityIssues
        [{ type := "Weak modality", text := "should",
           message := "Optional/weak requirement term: \x27should\x27",
           start_char := some 11, end_char := some 17 }]).2.1 :=
  C6_weak_modality.2 _ _ (List.mem_cons_self _ _) rfl

/-- C5 (amended): every issue produced by the weak-modality detector carries
integer character offsets — start is the `str.find` result (the sentinel -1
when the token text is not found) and end is start plus the token length;
the offsets are never null and the lookup never crashes. -/
theorem C5_amended_offsets :
    ∀ (tokens : List Token) (text : String) (i : AmbiguityIssue),
      i ∈ detectWeakModality tokens text →
      ∃ s : Int, i.start_char = some s ∧
        i.end_char = some (s + (i.text.length : Int)) := by
  intro tokens text i hi
  unfold detectWeakModality at hi
  rw [List.mem_flatMap] at hi
  obtain ⟨tok, _, hmem⟩ := hi
  dsimp only at hmem
  by_cases hw : weakModalityTerms.contains tok.text
  · rw [if_pos hw] at hmem
    rcases List.mem_singleton.1 hmem with rfl
    exact ⟨strFind (lowerStr text) tok.text tok.idx, rfl, rfl⟩
  · rw [if_neg hw] at hmem
    cases hmem

/-- C5 witness: the amended offset shape at the concrete not-found token of
the counterexample. -/
theorem C5_amended_offsets_witness :
    ∃ s : Int,
      ({ type := "Weak modality", text := "should",
         message := "Optional/weak requirement term: \x27should\x27",
         start_char := some (-1), end_char := some 5 } : AmbiguityIssue).start_char =
        some s ∧
      ({ type := "Weak modality", text := "should",
         message := "Optional/weak requirement term: \x27should\x27",
         start_char := some (-1), end_char := some 5 } : AmbiguityIssue).end_char =
        some (s + (("should" : String).length : Int)) :=
  C5_amended_offsets [{ text := "should", pos := "", dep := "", idx := 50 }] "x" _
    (by decide)

/-- C7 (amended): weak-modality matching is per token, so for any tokenizer
output whose tokens contain no space — as word tokenizers produce — no Weak
modality issue is ever emitted for the multi-word phrases "if possible",
"as needed" or "when necessary"; those entries of the term set are
unreachable. -/
theorem C7_amended_phrases :
    ∀ (tokens : List Token) (text : String),
      (∀ tok ∈ tokens, ¬tok.text.data.contains ' ' = true) →
      ∀ i ∈ detectWeakModality tokens text,
        i.text ≠ "if possible" ∧ i.text ≠ "as needed" ∧ i.text ≠ "when necessary" := by
  intro tokens text hsp i hi
  unfold detectWeakModality at hi
  rw [List.mem_flatMap] at hi
  obtain ⟨tok, htok, hmem⟩ := hi
  dsimp only at hmem
  by_cases hw : weakModalityTerms.contains tok.text
  · rw [if_pos hw] at hmem
    rcases List.mem_singleton.1 hmem with rfl
    have hs := hsp tok htok
    refine ⟨?_, ?_, ?_⟩ <;> intro he <;> dsimp only at he <;> rw [he] at hs <;>
      exact hs (by decide)
  · rw [if_neg hw] at hmem
    cases hmem

/-- C7 witness: the amended statement applied to the tokenization of
"the system should log errors", which does produce a Weak modality issue. -/
theorem C7_amended_phrases_witness :
    ({ type := "Weak modality", text := "should",
       message := "Optional/weak requirement term: \x27should\x27",
       start_char := some 11, end_char := some 17 } : AmbiguityIssue).text ≠
        "if possible" ∧
      ({ type := "Weak modality", text := "should",
         message := "Optional/weak requirement term: \x27should\x27",
         start_char := some 11, end_char := some 17 } : AmbiguityIssue).text ≠
        "as needed" ∧
      ({ type := "Weak modality", text := "should",
         message := "Optional/weak requirement term: \x27should\x27",
         start_char := some 11, end_char := some 17 } : AmbiguityIssue).text ≠
        "when necessary" :=
  C7_amended_phrases (wsTokenize "the system should log errors")
    "The system should log errors" (by decide) _ (by decide)

lemma questionStep_extends (acc : List String) (issue : FormattedIssue) :
    acc <+: questionStep acc issue := by
  unfold questionStep
  dsimp only
  split_ifs <;> first
    | exact List.prefix_append _ _
    | exact List.prefix_rfl

lemma foldl_questionStep_extends (issues : List FormattedIssue) (acc : List String) :
    acc <+: issues.foldl questionStep acc := by
  induction issues generalizing acc with
  | nil => exact List.prefix_rfl
  | cons a tl ih => exact (questionStep_extends acc a).trans (ih (questionStep acc a))

lemma questionStep_nodup (acc : List String) (issue : FormattedIssue)
    (h : acc.Nodup) : (questionStep acc issue).Nodup := by
  unfold questionStep
  dsimp only
  split_ifs with h1 h2 h3 h4 <;>
    first
      | exact h
      | · refine List.Nodup.append h (List.nodup_singleton _) ?_
          intro x hx hx'
          rcases List.mem_singleton.1 hx' with rfl
          first
            | exact h2.2 hx
            | exact h4.2 hx

lemma foldl_questionStep_nodup (issues : List FormattedIssue) (acc : List String)
    (h : acc.Nodup) : (issues.foldl questionStep acc).Nodup := by
  induction issues generalizing acc with
  | nil => exact h
  | cons a tl ih => exact ih (questionStep acc a) (questionStep_nodup acc a h)

/-- C8: for every formatted issue list and text, the clarifying-question list
has at most 8 entries, no duplicate strings, and starts with the two fixed
standard questions before any issue-specific question. -/
theorem C8_questions :
    ∀ (issues : List FormattedIssue) (text : String),
      (generateClarifyingQuestions issues text).length ≤ 8 ∧
      (generateClarifyingQuestions issues text).Nodup ∧
      (generateClarifyingQuestions issues text).take 2 =
        ["What are the exact preconditions required for this test?",
         "What is the expected result and how should it be verified?"] := by
  intro issues text
  unfold generateClarifyingQuestions
  dsimp only
  refine ⟨List.length_take_le _ _, ?_, ?_⟩
  · exact List.Nodup.sublist (List.take_sublist _ _)
      (foldl_questionStep_nodup issues _ (by decide))
  · obtain ⟨t, ht⟩ := foldl_questionStep_extends issues
      ["What are the exact preconditions required for this test?",
       "What is the expected result and how should it be verified?"]
    rw [← ht, List.take_take]
    rw [show min 2 8 = 2 from rfl]
    rw [show (2 : ℕ) =
      (["What are the exact preconditions required for this test?",
        "What is the expected result and how should it be verified?"] :
          List String).length from rfl]
    exact List.take_left _ _

lemma compress_mono {x y : ℚ} (h : x ≤ y) :
    (if x > 80 then 80 + (x - 80) * 0.3 else min 100 x) ≤
      (if y > 80 then 80 + (y - 80) * 0.3 else min 100 y) := by
  split_ifs with h1 h2 h2
  · linarith
  · exact absurd (lt_of_lt_of_le h1 h) h2
  · have hx := min_le_right (100 : ℚ) x
    linarith
  · exact min_le_min le_rfl h

lemma densityStep_mono (n L : ℕ) :
    min (30 : ℚ) ((n : ℚ) / ((max L 5 : ℕ) : ℚ) * 60) ≤
      min 30 (((n + 1 : ℕ) : ℚ) / ((max (L + 1) 5 : ℕ) : ℚ) * 60) := by
  have hA5 : (5 : ℕ) ≤ max L 5 := le_max_right _ _
  have hBA : max (L + 1) 5 ≤ max L 5 + 1 := by omega
  have hA0 : (0 : ℚ) < ((max L 5 : ℕ) : ℚ) := by
    exact_mod_cast lt_of_lt_of_le (by norm_num) hA5
  have hB0 : (0 : ℚ) < ((max (L + 1) 5 : ℕ) : ℚ) := by
    exact_mod_cast lt_of_lt_of_le (by norm_num) (le_max_right (L + 1) 5)
  have hBAq : ((max (L + 1) 5 : ℕ) : ℚ) ≤ ((max L 5 : ℕ) : ℚ) + 1 := by
    exact_mod_cast hBA
  have hn0 : (0 : ℚ) ≤ (n : ℚ) := by positivity
  by_cases hc : (30 : ℚ) ≤ (n : ℚ) / ((max L 5 : ℕ) : ℚ) * 60
  · have h2n : ((max L 5 : ℕ) : ℚ) ≤ 2 * (n : ℚ) := by
      rw [div_mul_eq_mul_div, le_div_iff hA0] at hc
      linarith
    have hcast : ((n + 1 : ℕ) : ℚ) = (n : ℚ) + 1 := by push_cast; ring
    have hrhs : (30 : ℚ) ≤ ((n + 1 : ℕ) : ℚ) / ((max (L + 1) 5 : ℕ) : ℚ) * 60 := by
      rw [div_mul_eq_mul_div, le_div_iff₀ hB0, hcast]
      linarith
    rw [min_eq_left hc, min_eq_left hrhs]
  · push_neg at hc
    have hn_le : (n : ℚ) ≤ ((max L 5 : ℕ) : ℚ) := by
      rw [div_mul_eq_mul_div, div_lt_iff hA0] at hc
      linarith
    have hcast : ((n + 1 : ℕ) : ℚ) = (n : ℚ) + 1 := by push_cast; ring
    have hxy : (n : ℚ) / ((max L 5 : ℕ) : ℚ) * 60 ≤
        ((n + 1 : ℕ) : ℚ) / ((max (L + 1) 5 : ℕ) : ℚ) * 60 := by
      rw [div_mul_eq_mul_div, div_mul_eq_mul_div, div_le_div_iff hA0 hB0, hcast]
      nlinarith [mul_le_mul_of_nonneg_left hBAq hn0]
    exact le_min (min_le_left _ _) (le_trans (min_le_right _ _) hxy)

/-- C9: appending one additional flagged subjective-term issue, together with
the one word it adds to the text, never decreases the lexical component
score: the base weight sum gains a nonnegative weight, the capped density
term cannot decrease, and the compression map is monotone. -/
theorem C9_lexical_monotone :
    ∀ (lexIssues : List AmbiguityIssue) (newIssue : AmbiguityIssue)
      (text term : String),
      lexIssues ≠ [] → text ≠ "" → newIssue.type = "Subjective term" →
      wordCount (text ++ " " ++ term) = wordCount text + 1 →
      calculateComponentScore lexIssues text "lexical" ≤
        calculateComponentScore (lexIssues ++ [newIssue]) (text ++ " " ++ term)
          "lexical" := by
  intro lexIssues newIssue text term hne htext htype hwc
  have htext' : (text ++ " " ++ term) ≠ "" := by
    intro h0
    rw [h0, show wordCount "" = 0 from rfl] at hwc
    omega
  unfold calculateComponentScore
  rw [if_neg (by simp [hne] : ¬lexIssues.isEmpty = true),
    if_neg (by simp : ¬(lexIssues ++ [newIssue]).isEmpty = true)]
  dsimp only
  rw [if_pos (show "lexical" = "lexical" from rfl)]
  rw [if_pos (show "lexical" = "lexical" from rfl)]
  have hb : ((lexIssues ++ [newIssue]).map issueWeight).sum =
      (lexIssues.map issueWeight).sum + issueWeight newIssue := by
    rw [List.map_append, List.sum_append]
    simp
  rw [hb]
  have hw0 := issueWeight_nonneg newIssue
  rw [show (lexIssues ++ [newIssue]).length = lexIssues.length + 1 from by simp]
  have htL : textLengthPy text = wordCount text := by
    unfold textLengthPy
    rw [if_neg htext]
  have htL' : textLengthPy (text ++ " " ++ term) = wordCount text + 1 := by
    unfold textLengthPy
    rw [if_neg htext']
    exact hwc
  rw [htL, htL']
  apply compress_mono
  have hd := densityStep_mono lexIssues.length (wordCount text)
  linarith

/-- C9 witness: concretely, adding a "good" subjective issue and the word
"good" to "the api is fast" with its "fast" issue does not decrease the
lexical component score. -/
theorem C9_lexical_monotone_witness :
    calculateComponentScore
        [{ type := "Subjective term", text := "fast",
           message := "Subjective term \x27fast\x27 lacks specific, measurable criteria" }]
        "the api is fast" "lexical" ≤
      calculateComponentScore
        ([{ type := "Subjective term", text := "fast",
            message := "Subjective term \x27fast\x27 lacks specific, measurable criteria" }] ++
          [{ type := "Subjective term", text := "good",
             message := "Subjective term \x27good\x27 lacks specific, measurable criteria" }])
        ("the api is fast" ++ " " ++ "good") "lexical" :=
  C9_lexical_monotone _ _ _ _ (by decide) (by decide) rfl (by decide)

/-- C10: `get_score_breakdown` passes the analysis dicts themselves into
`calculate_readiness_score`, whose first comparison is not defined on dicts;
in the total embedding the error branch is reached for every tokenizer and
every input text, never the success branch. -/
theorem C10_breakdown_error :
    ∀ (tokenize : String → List Token) (text : String),
      getScoreBreakdown tokenize text = Except.error "TypeError" := by
  intro tokenize text
  rfl

end ReqAnalyzer
